import Mathlib

/-!
Verification of the contiv-vpp telemetry/validation core: the multi-indexed
VPP cache, the collection/validation pipeline (collector, joiner, validator)
and the report sink.  Data-plane records are embedded shallowly; Go maps are
modelled as association lists, Go `error` returns as `Except CacheError`.
-/

/-! ## Generic association-list helpers (Go `map` model) -/

/-- Lookup in an association list: first binding of the key wins,
matching Go map semantics where each key has at most one binding. -/
def alookup [DecidableEq κ] : List (κ × α) → κ → Option α
  | [], _ => none
  | (k, v) :: rest, key => if k = key then some v else alookup rest key

/-- Remove every binding of a key. -/
def aerase [DecidableEq κ] : List (κ × α) → κ → List (κ × α)
  | [], _ => []
  | (k, v) :: rest, key =>
    if k = key then aerase rest key else (k, v) :: aerase rest key

/-- Insert a binding, overwriting any previous binding of the key
(Go `m[k] = v`). -/
def ainsert [DecidableEq κ] (m : List (κ × α)) (k : κ) (v : α) : List (κ × α) :=
  (k, v) :: aerase m k

/-- Remove every binding whose value equals `v` (used when a node is dropped
from a secondary index). -/
def aremoveValue [DecidableEq α] : List (κ × α) → α → List (κ × α)
  | [], _ => []
  | (k, v) :: rest, target =>
    if v = target then aremoveValue rest target
    else (k, v) :: aremoveValue rest target

/-! ## Kernel-computable string ordering (for name-sorted retrieval) -/

/-- Lexicographic `≤` on char lists via code points. -/
def charListLe : List Char → List Char → Bool
  | [], _ => true
  | _ :: _, [] => false
  | x :: xs, y :: ys =>
    if x.toNat < y.toNat then true
    else if y.toNat < x.toNat then false
    else charListLe xs ys

/-- Lexicographic `≤` on strings via code points (the ordering used by
Go `sort.Strings` up to byte/code-point agreement on the names involved). -/
def strLe (a b : String) : Bool := charListLe a.data b.data

def charListLe_total : ∀ as bs : List Char,
    charListLe as bs = true ∨ charListLe bs as = true := by
  intro as
  induction as with
  | nil => intro bs; left; rfl
  | cons x xs ih =>
    intro bs
    cases bs with
    | nil => right; rfl
    | cons y ys =>
      by_cases hxy : x.toNat < y.toNat
      · left; simp [charListLe, hxy]
      · by_cases hyx : y.toNat < x.toNat
        · right; simp [charListLe, hyx]
        · rcases ih ys with h | h
          · left; simpa [charListLe, hxy, hyx] using h
          · right; simpa [charListLe, hxy, hyx] using h

def charListLe_trans : ∀ as bs cs : List Char,
    charListLe as bs = true → charListLe bs cs = true →
    charListLe as cs = true := by
  intro as
  induction as with
  | nil => intro bs cs _ _; rfl
  | cons x xs ih =>
    intro bs cs hab hbc
    cases bs with
    | nil => simp [charListLe] at hab
    | cons y ys =>
      cases cs with
      | nil => simp [charListLe] at hbc
      | cons z zs =>
        by_cases hxy : x.toNat < y.toNat
        · by_cases hyz : y.toNat < z.toNat
          · have hxz : x.toNat < z.toNat := Nat.lt_trans hxy hyz
            simp [charListLe, hxz]
          · by_cases hzy : z.toNat < y.toNat
            · simp [charListLe, hyz, hzy] at hbc
            · have hyz' : y.toNat = z.toNat := Nat.le_antisymm
                (Nat.le_of_not_lt hzy) (Nat.le_of_not_lt hyz)
              have hxz : x.toNat < z.toNat := hyz' ▸ hxy
              simp [charListLe, hxz]
        · by_cases hyx : y.toNat < x.toNat
          · simp [charListLe, hxy, hyx] at hab
          · have hxy' : x.toNat = y.toNat := Nat.le_antisymm
              (Nat.le_of_not_lt hyx) (Nat.le_of_not_lt hxy)
            have hab' : charListLe xs ys = true := by
              simpa [charListLe, hxy, hyx] using hab
            by_cases hyz : y.toNat < z.toNat
            · have hxz : x.toNat < z.toNat := hxy' ▸ hyz
              simp [charListLe, hxz]
            · by_cases hzy : z.toNat < y.toNat
              · simp [charListLe, hyz, hzy] at hbc
              · have hbc' : charListLe ys zs = true := by
                  simpa [charListLe, hyz, hzy] using hbc
                have hyz' : y.toNat = z.toNat := Nat.le_antisymm
                  (Nat.le_of_not_lt hzy) (Nat.le_of_not_lt hyz)
                have hxz1 : ¬ x.toNat < z.toNat := by omega
                have hxz2 : ¬ z.toNat < x.toNat := by omega
                simpa [charListLe, hxz1, hxz2] using ih ys zs hab' hbc'

/-! ## Telemetry data model (`plugins/crd/cache` types / `telemetrymodel`) -/

/-- Unmarshalled node liveness data (json `/liveness`). -/
structure NodeLiveness where
  BuildVersion : String := ""
  BuildDate : String := ""
  State : Nat := 0
  StartTime : Nat := 0
  LastChange : Nat := 0
  LastUpdate : Nat := 0
  CommitHash : String := ""
deriving DecidableEq, Repr

/-- VXLAN sub-record of an interface. -/
structure Vxlan where
  SrcAddress : String := ""
  DstAddress : String := ""
  Vni : Nat := 0
deriving DecidableEq, Repr

/-- TAP sub-record of an interface. -/
structure Tap where
  Version : Nat := 0
  HostIfName : String := ""
deriving DecidableEq, Repr

/-- Unmarshalled interface record (json `/interfaces` values). -/
structure NodeInterface where
  VppInternalName : String := ""
  Name : String := ""
  IfType : Nat := 0
  Enabled : Bool := false
  PhysAddress : String := ""
  Mtu : Nat := 0
  Vxlan : Vxlan := {}
  IPAddresses : List String := []
  Tap : Tap := {}
deriving DecidableEq, Repr

/-- Bridge-domain member entry (json `sw_if_index`). -/
structure BdInterface where
  SwIfIndex : Nat := 0
deriving DecidableEq, Repr

/-- Unmarshalled bridge-domain record (json `/bridgedomains` values). -/
structure NodeBridgeDomain where
  Interfaces : List BdInterface := []
  Name : String := ""
  Forward : Bool := false
deriving DecidableEq, Repr

/-- Unmarshalled L2 FIB entry (json `/l2fibs` values). -/
structure NodeL2FibEntry where
  BridgeDomainIdx : Nat := 0
  OutgoingInterfaceSwIfIdx : Nat := 0
  PhysAddress : String := ""
  StaticConfig : Bool := false
  BridgedVirtualInterface : Bool := false
deriving DecidableEq, Repr

/-- Unmarshalled IP ARP entry (json `/arps` elements). -/
structure NodeIPArpEntry where
  Interface : Nat := 0
  IPAddress : String := ""
  MacAddress : String := ""
  Static : Bool := false
deriving DecidableEq, Repr

/-- Node telemetry record (command with raw output). -/
structure NodeTelemetry where
  Command : String := ""
  Output : List String := []
deriving DecidableEq, Repr

/-- Per-node VPP record: identity plus the child collections attached by the
named setters after collection. -/
structure Node where
  ID : Nat
  IPAdr : String
  ManIPAdr : String
  Name : String
  NodeLiveness : Option NodeLiveness := none
  NodeInterfaces : List (Nat × NodeInterface) := []
  NodeBridgeDomains : List (Nat × NodeBridgeDomain) := []
  NodeL2Fibs : List (String × NodeL2FibEntry) := []
  NodeTelemetry : List (String × NodeTelemetry) := []
  NodeIPArp : List NodeIPArpEntry := []
deriving DecidableEq, Repr

/-- Typed cache errors surfaced by the stores. -/
inductive CacheError where
  | notFound
  | alreadyExists
deriving DecidableEq, Repr

/-! ## VPP data store

Modelled from the spec: the implementation of `datastore.VppDataStore` is not
under `src/` (only its test file is), so the store is reconstructed from the
contract in spec §4.1 and §9: one authoritative map name→Node plus secondary
indexes key→name; `CreateNode` fails with AlreadyExists on a duplicate name
and otherwise inserts into the primary map and the GigE-IP index;
`SetNodeInterfaces` rebuilds the loopback-IP/MAC indexes for the node. -/

/-- Modelled from the spec: in-memory VPP store state — primary name map and
the GigE-IP, loopback-IP, loopback-MAC and host-IP secondary indexes
(key → node name, per spec §9 "Multi-index consistency"). -/
structure VppDataStore where
  nMap : List (String × Node) := []
  gigEIPMap : List (String × String) := []
  loopIPMap : List (String × String) := []
  loopMACMap : List (String × String) := []
  hostIPMap : List (String × String) := []
deriving DecidableEq, Repr

/-- Modelled from the spec: an empty VPP store. -/
def NewVppDataStore : VppDataStore := {}

/-- Modelled from the spec: `RetrieveNode(name) → Node | NotFound`. -/
def RetrieveNode (s : VppDataStore) (name : String) : Except CacheError Node :=
  match alookup s.nMap name with
  | some nd => .ok nd
  | none => .error .notFound

/-- Modelled from the spec: `CreateNode(id, name, ipAddr, manIpAddr)` fails
with AlreadyExists if the name is present, otherwise inserts the node into
the primary map and the GigE-IP secondary index. -/
def CreateNode (s : VppDataStore) (id : Nat) (name ipAddr manIpAddr : String) :
    Except CacheError VppDataStore :=
  match alookup s.nMap name with
  | some _ => .error .alreadyExists
  | none =>
    .ok { s with
      nMap := ainsert s.nMap name
        { ID := id, IPAdr := ipAddr, ManIPAdr := manIpAddr, Name := name },
      gigEIPMap := ainsert s.gigEIPMap ipAddr name }

/-- Modelled from the spec: `UpdateNode(id, name, ipAddr, manIpAddr)` fails
with NotFound if the name is absent; otherwise replaces ip/manIp and
preserves the id and the child collections. -/
def UpdateNode (s : VppDataStore) (_id : Nat) (name ipAddr manIpAddr : String) :
    Except CacheError VppDataStore :=
  match alookup s.nMap name with
  | none => .error .notFound
  | some nd =>
    .ok { s with
      nMap := ainsert s.nMap name { nd with IPAdr := ipAddr, ManIPAdr := manIpAddr } }

/-- Modelled from the spec: `DeleteNode(name)` fails with NotFound, otherwise
removes the node from the primary map and from every secondary index row that
referenced it. -/
def DeleteNode (s : VppDataStore) (name : String) : Except CacheError VppDataStore :=
  match alookup s.nMap name with
  | none => .error .notFound
  | some _ =>
    .ok { nMap := aerase s.nMap name,
          gigEIPMap := aremoveValue s.gigEIPMap name,
          loopIPMap := aremoveValue s.loopIPMap name,
          loopMACMap := aremoveValue s.loopMACMap name,
          hostIPMap := aremoveValue s.hostIPMap name }

/-- Prop form of the name ordering on nodes. -/
def nodeLe (a b : Node) : Prop := strLe a.Name b.Name = true

instance : DecidableRel nodeLe := fun a b =>
  inferInstanceAs (Decidable (strLe a.Name b.Name = true))

instance : IsTotal Node nodeLe :=
  ⟨fun a b => charListLe_total a.Name.data b.Name.data⟩

instance : IsTrans Node nodeLe :=
  ⟨fun a b c => charListLe_trans a.Name.data b.Name.data c.Name.data⟩

/-- Modelled from the spec: `RetrieveAllNodes()` returns all stored nodes
sorted ascending by name. -/
def RetrieveAllNodes (s : VppDataStore) : List Node :=
  List.insertionSort nodeLe (s.nMap.map Prod.snd)

/-- Lookup through a secondary index: key → name → node. -/
def retrieveNodeByIdx (s : VppDataStore) (idx : List (String × String))
    (key : String) : Except CacheError Node :=
  match alookup idx key with
  | none => .error .notFound
  | some name => RetrieveNode s name

/-- Modelled from the spec: exact-match retrieval on the GigE-IP index. -/
def RetrieveNodeByGigEIPAddr (s : VppDataStore) (key : String) : Except CacheError Node :=
  retrieveNodeByIdx s s.gigEIPMap key

/-- Modelled from the spec: exact-match retrieval on the host-IP index. -/
def RetrieveNodeByHostIPAddr (s : VppDataStore) (key : String) : Except CacheError Node :=
  retrieveNodeByIdx s s.hostIPMap key

/-- Modelled from the spec: exact-match retrieval on the loopback-IP index. -/
def RetrieveNodeByLoopIPAddr (s : VppDataStore) (key : String) : Except CacheError Node :=
  retrieveNodeByIdx s s.loopIPMap key

/-- Modelled from the spec: exact-match retrieval on the loopback-MAC index. -/
def RetrieveNodeByLoopMacAddr (s : VppDataStore) (key : String) : Except CacheError Node :=
  retrieveNodeByIdx s s.loopMACMap key

/-- Char-list version of the loopback-name test. -/
def isLoopChars : List Char → List Char → Bool
  | _, [] => true
  | [], _ :: _ => false
  | x :: xs, y :: ys => (x == y) && isLoopChars xs ys

/-- An interface is a loopback when its `vppInternalName` matches the
well-known loopback pattern (configuration default `loop0`; the repo tests
use names beginning with `loop`, e.g. `TestGetNodeLoopIFInfo`). -/
def isLoopIf (ifc : NodeInterface) : Bool :=
  isLoopChars ifc.VppInternalName.data "loop".data

/-- IP addresses contributed to the loopback-IP index by an interface set. -/
def loopIPsOf (ifs : List (Nat × NodeInterface)) : List String :=
  ((ifs.map Prod.snd).filter isLoopIf).flatMap (fun ifc => ifc.IPAddresses)

/-- MAC addresses contributed to the loopback-MAC index by an interface set. -/
def loopMACsOf (ifs : List (Nat × NodeInterface)) : List String :=
  ((ifs.map Prod.snd).filter isLoopIf).map (fun ifc => ifc.PhysAddress)

/-- Insert a batch of keys all mapping to the same node name. -/
def insertAllIdx (idx : List (String × String)) (keys : List String)
    (name : String) : List (String × String) :=
  keys.foldl (fun m k => ainsert m k name) idx

/-- Modelled from the spec: `SetNodeInterfaces(name, ifs)` fails with NotFound
for an unknown node; otherwise overwrites the interface map wholesale and
rebuilds the loopback-IP and loopback-MAC secondary indexes for this node:
prior rows pointing to the node are removed first, then every loopback
interface contributes (ip → node) for each IP address and (mac → node) for
its physAddress. -/
def SetNodeInterfaces (s : VppDataStore) (name : String)
    (ifs : List (Nat × NodeInterface)) : Except CacheError VppDataStore :=
  match alookup s.nMap name with
  | none => .error .notFound
  | some nd =>
    .ok { s with
      nMap := ainsert s.nMap name { nd with NodeInterfaces := ifs },
      loopIPMap := insertAllIdx (aremoveValue s.loopIPMap name) (loopIPsOf ifs) name,
      loopMACMap := insertAllIdx (aremoveValue s.loopMACMap name) (loopMACsOf ifs) name }

/-- Modelled from the spec: overwrite the liveness child record. -/
def SetNodeLiveness (s : VppDataStore) (name : String)
    (l : Option NodeLiveness) : Except CacheError VppDataStore :=
  match alookup s.nMap name with
  | none => .error .notFound
  | some nd => .ok { s with nMap := ainsert s.nMap name { nd with NodeLiveness := l } }

/-- Modelled from the spec: overwrite the bridge-domain child map. -/
def SetNodeBridgeDomain (s : VppDataStore) (name : String)
    (bds : List (Nat × NodeBridgeDomain)) : Except CacheError VppDataStore :=
  match alookup s.nMap name with
  | none => .error .notFound
  | some nd => .ok { s with nMap := ainsert s.nMap name { nd with NodeBridgeDomains := bds } }

/-- Modelled from the spec: overwrite the L2 FIB child map. -/
def SetNodeL2Fibs (s : VppDataStore) (name : String)
    (fibs : List (String × NodeL2FibEntry)) : Except CacheError VppDataStore :=
  match alookup s.nMap name with
  | none => .error .notFound
  | some nd => .ok { s with nMap := ainsert s.nMap name { nd with NodeL2Fibs := fibs } }

/-- Modelled from the spec: overwrite the IP-ARP child table. -/
def SetNodeIPARPs (s : VppDataStore) (name : String)
    (arps : List NodeIPArpEntry) : Except CacheError VppDataStore :=
  match alookup s.nMap name with
  | none => .error .notFound
  | some nd => .ok { s with nMap := ainsert s.nMap name { nd with NodeIPArp := arps } }

/-- Modelled from the spec: overwrite the telemetry child map. -/
def SetNodeTelemetry (s : VppDataStore) (name : String)
    (t : List (String × NodeTelemetry)) : Except CacheError VppDataStore :=
  match alookup s.nMap name with
  | none => .error .notFound
  | some nd => .ok { s with nMap := ainsert s.nMap name { nd with NodeTelemetry := t } }

/-- Modelled from the spec: `ClearCache()` drops all VPP records and the
loop/host/gigE indexes; the primary name map is emptied. -/
def ClearCache (_s : VppDataStore) : VppDataStore := {}

/-- Modelled from the spec: `ReinitializeCache()` is a full reset. -/
def ReinitializeCache (_s : VppDataStore) : VppDataStore := {}

/-- Modelled from the spec and `TestGetNodeLoopIFInfo`: the loopback
interface of a node, or NotFound when the node has none. -/
def GetNodeLoopIFInfo (nd : Node) : Except CacheError NodeInterface :=
  match (nd.NodeInterfaces.map Prod.snd).find? isLoopIf with
  | some ifc => .ok ifc
  | none => .error .notFound

/-- Run an operation that may fail, keeping the previous state on error
(Go call sites that ignore the returned error). -/
def applyE (r : Except CacheError VppDataStore) (s : VppDataStore) : VppDataStore :=
  match r with
  | .ok s' => s'
  | .error _ => s

/-- Loopback interface used by the C3 witness (from `TestGetNodeLoopIFInfo`). -/
def wLoopIf : NodeInterface :=
  { VppInternalName := "loop0", Name := "loop0", Enabled := true,
    PhysAddress := "aa:bb:cc:dd:ee:ff", Mtu := 1500,
    Vxlan := { SrcAddress := "10.20.30.40", DstAddress := "11.22.33.44", Vni := 10 },
    IPAddresses := ["1.2.3.4"], Tap := { Version := 2 } }

/-- Interface map with a loop0 interface (C3 witness, first upload). -/
def wIfsLoop : List (Nat × NodeInterface) := [(3, wLoopIf)]

/-- Interface map without any loopback (C3 witness, second upload; from
`TestVppDataStore_SetNodeInterfaces`). -/
def wIfsNoLoop : List (Nat × NodeInterface) :=
  [(0, { VppInternalName := "Test", Name := "Testing" })]

/-- C3 witness state: store holding one node `k8s_master`. -/
def wS0 : VppDataStore :=
  applyE (CreateNode NewVppDataStore 1 "k8s_master" "10" "10") NewVppDataStore

/-- C3 witness state after uploading the loop0 interface set. -/
def wS1 : VppDataStore := applyE (SetNodeInterfaces wS0 "k8s_master" wIfsLoop) wS0

/-- C3 witness state after uploading the loopback-free interface set. -/
def wS2 : VppDataStore := applyE (SetNodeInterfaces wS1 "k8s_master" wIfsNoLoop) wS1

/-! ## Claim C10 — `DeleteVppNode` stops at the first missing name

`ContivTelemetryCache.DeleteVppNode` (src/plugins/crd/cache/cache_impl.go):
for each name, retrieve the node; on a retrieval error, log and return
immediately; otherwise delete the retrieved node by its name (ignoring the
delete result) and continue. -/

/-- Embedding of `ContivTelemetryCache.DeleteVppNode` over the VPP store. -/
def DeleteVppNode : VppDataStore → List String → VppDataStore
  | s, [] => s
  | s, str :: rest =>
    match RetrieveNode s str with
    | .error _ => s
    | .ok node => DeleteVppNode (applyE (DeleteNode s node.Name) s) rest

/-- All names in the list are present, each in the state left by deleting
the previous ones (the success path of `DeleteVppNode`). -/
def seqDeletable : VppDataStore → List String → Bool
  | _, [] => true
  | s, str :: rest =>
    match RetrieveNode s str with
    | .error _ => false
    | .ok node => seqDeletable (applyE (DeleteNode s node.Name) s) rest

/-- Primary-map well-formedness: every stored node is keyed by its own name
(true of every state built through `CreateNode` and the setters). -/
def NMapNamed (s : VppDataStore) : Prop := ∀ kv ∈ s.nMap, kv.2.Name = kv.1

instance (s : VppDataStore) : Decidable (NMapNamed s) :=
  inferInstanceAs (Decidable (∀ kv ∈ s.nMap, kv.2.Name = kv.1))

/-- Store with node `nodeA` (C10 witness). -/
def wDelA : VppDataStore :=
  applyE (CreateNode NewVppDataStore 1 "nodeA" "1.1.1.1" "1.1.1.1") NewVppDataStore

/-- Store with nodes `nodeA` and `nodeB` (C10 witness). -/
def wDelAB : VppDataStore :=
  applyE (CreateNode wDelA 2 "nodeB" "2.2.2.2" "2.2.2.2") wDelA

/-! ## Joiner (`ContivTelemetryProcessor.ProcessNodeResponses` / `SetNodeData`)

`ProcessNodeResponses` and `SetNodeData` are embedded from
src/plugins/crd/cache/cache_impl.go: results are buffered in `dtoMap`; when
the buffer holds `numDTOs * len(nodelist)` results the whole batch is
installed by `SetNodeData` (per-document setters, error strings appended to
the flat report), the validator is invoked, the buffer is cleared and the
cache is cleared.  The validator call itself is recorded as a trace event
(its body lives in the Validator component). -/

/-- `numDTOs` from the cache types file: five documents per node per cycle. -/
def numDTOs : Nat := 5

/-- Tagged union over the DTO kinds dispatched by `SetNodeData`. -/
inductive NodeDTO where
  | livenessDTO (nodeName : String) (info : Option NodeLiveness) (err : Option String)
  | interfacesDTO (nodeName : String) (info : List (Nat × NodeInterface))
      (err : Option String)
  | bridgeDomainsDTO (nodeName : String) (info : List (Nat × NodeBridgeDomain))
      (err : Option String)
  | l2FibsDTO (nodeName : String) (info : List (String × NodeL2FibEntry))
      (err : Option String)
  | telemetryDTO (nodeName : String) (info : List (String × NodeTelemetry))
      (err : Option String)
  | ipArpDTO (nodeName : String) (info : List NodeIPArpEntry) (err : Option String)
deriving DecidableEq, Repr

/-- Node name carried by a DTO. -/
def NodeDTO.name : NodeDTO → String
  | .livenessDTO n _ _ => n
  | .interfacesDTO n _ _ => n
  | .bridgeDomainsDTO n _ _ => n
  | .l2FibsDTO n _ _ => n
  | .telemetryDTO n _ _ => n
  | .ipArpDTO n _ _ => n

/-- Error carried by a DTO (set when the fetch or decode failed). -/
def NodeDTO.error : NodeDTO → Option String
  | .livenessDTO _ _ e => e
  | .interfacesDTO _ _ e => e
  | .bridgeDomainsDTO _ _ e => e
  | .l2FibsDTO _ _ e => e
  | .telemetryDTO _ _ e => e
  | .ipArpDTO _ _ e => e

/-- Append a DTO error (if any) to the flat report. -/
def appendDtoErr (r : List String) : Option String → List String
  | some e => r ++ [e]
  | none => r

/-- One `SetNodeData` iteration: append the carried error to the report and
route the payload to the matching setter (whose error the Go code ignores). -/
def setNodeDataStep (c : VppDataStore) (r : List String) :
    NodeDTO → VppDataStore × List String
  | .livenessDTO n info err => (applyE (SetNodeLiveness c n info) c, appendDtoErr r err)
  | .interfacesDTO n info err =>
    (applyE (SetNodeInterfaces c n info) c, appendDtoErr r err)
  | .bridgeDomainsDTO n info err =>
    (applyE (SetNodeBridgeDomain c n info) c, appendDtoErr r err)
  | .l2FibsDTO n info err => (applyE (SetNodeL2Fibs c n info) c, appendDtoErr r err)
  | .telemetryDTO n info err =>
    (applyE (SetNodeTelemetry c n info) c, appendDtoErr r err)
  | .ipArpDTO n info err => (applyE (SetNodeIPARPs c n info) c, appendDtoErr r err)

/-- `SetNodeData`: install a whole batch of DTOs into the cache. -/
def SetNodeData (c : VppDataStore) (r : List String) (dtos : List NodeDTO) :
    VppDataStore × List String :=
  dtos.foldl (fun cr d => setNodeDataStep cr.1 cr.2 d) (c, r)

/-- Observable joiner events: a cache mutation installing one document, or an
invocation of the validator. -/
inductive ProcEvent where
  | mutation (d : NodeDTO)
  | validate
deriving DecidableEq, Repr

/-- Embedding of `ProcessNodeResponses` over a finite response stream:
returns the final (cache, report, dtoMap) and the trace of cache-mutation
and validator-invocation events. -/
def ProcessNodeResponses :
    VppDataStore → List String → List NodeDTO → List NodeDTO →
    (VppDataStore × List String × List NodeDTO) × List ProcEvent
  | c, r, dtoMap, [] => ((c, r, dtoMap), [])
  | c, r, dtoMap, d :: input =>
    let dm := dtoMap ++ [d]
    if dm.length = numDTOs * (RetrieveAllNodes c).length then
      let cr := SetNodeData c r dm
      let rest := ProcessNodeResponses (ClearCache cr.1) cr.2 [] input
      (rest.1, (dm.map ProcEvent.mutation ++ [ProcEvent.validate]) ++ rest.2)
    else
      ProcessNodeResponses c r dm input

/-- One-node cache used by the joiner witnesses (mirrors the processor test
`AddNode(1, "k8s-master", "10.20.0.2", "localhost")`). -/
def wJC : VppDataStore :=
  applyE (CreateNode NewVppDataStore 1 "k8s-master" "10.20.0.2" "localhost")
    NewVppDataStore

/-- Four of the five per-node documents (an incomplete batch). -/
def wDTO4 : List NodeDTO :=
  [.livenessDTO "k8s-master" (some {}) none,
   .interfacesDTO "k8s-master" [] none,
   .bridgeDomainsDTO "k8s-master" [] none,
   .l2FibsDTO "k8s-master" [] none]

/-- A complete batch of five per-node documents. -/
def wDTO5 : List NodeDTO := wDTO4 ++ [.ipArpDTO "k8s-master" [] none]

/-! ## Collector

Modelled from the spec: the collector implementation is not under `src/`
(only its test is).  Spec §4.4: on each tick, for each node, five
independent fetches (one per document kind) are launched; each fetch either
parses its document or yields an error-tagged result of the same shape —
one result per (node, endpoint) pair, never a dropped message. -/

/-- The five per-node document kinds, in the spec enumeration order. -/
inductive DtoKind where
  | liveness
  | interfaces
  | bridgeDomains
  | l2Fibs
  | ipArp
deriving DecidableEq, Repr

/-- Modelled from the spec: the endpoint list polled for every node. -/
def dtoKinds : List DtoKind :=
  [.liveness, .interfaces, .bridgeDomains, .l2Fibs, .ipArp]

/-- Document kind carried by a DTO (none for the telemetry DTO, which is not
among the five collector documents). -/
def NodeDTO.kind? : NodeDTO → Option DtoKind
  | .livenessDTO _ _ _ => some .liveness
  | .interfacesDTO _ _ _ => some .interfaces
  | .bridgeDomainsDTO _ _ _ => some .bridgeDomains
  | .l2FibsDTO _ _ _ => some .l2Fibs
  | .telemetryDTO _ _ _ => none
  | .ipArpDTO _ _ _ => some .ipArp

/-- Parsed agent answer (the typed documents a node agent can return). -/
structure AgentReply where
  liveness : Option NodeLiveness := none
  interfaces : List (Nat × NodeInterface) := []
  bridgeDomains : List (Nat × NodeBridgeDomain) := []
  l2Fibs : List (String × NodeL2FibEntry) := []
  ipArps : List NodeIPArpEntry := []
deriving DecidableEq, Repr

/-- Modelled from the spec: wrap one fetch outcome as a typed result — the
parsed payload on success, or an error-tagged result of the same shape
(payload empty, error set). -/
def fetchToDTO (nm : String) (k : DtoKind) (res : Except String AgentReply) : NodeDTO :=
  match k, res with
  | .liveness, .ok a => .livenessDTO nm a.liveness none
  | .liveness, .error e => .livenessDTO nm none (some e)
  | .interfaces, .ok a => .interfacesDTO nm a.interfaces none
  | .interfaces, .error e => .interfacesDTO nm [] (some e)
  | .bridgeDomains, .ok a => .bridgeDomainsDTO nm a.bridgeDomains none
  | .bridgeDomains, .error e => .bridgeDomainsDTO nm [] (some e)
  | .l2Fibs, .ok a => .l2FibsDTO nm a.l2Fibs none
  | .l2Fibs, .error e => .l2FibsDTO nm [] (some e)
  | .ipArp, .ok a => .ipArpDTO nm a.ipArps none
  | .ipArp, .error e => .ipArpDTO nm [] (some e)

/-- Modelled from the spec: one collection tick — for each node, one typed
result per document kind, fetched from the node management IP. -/
def CollectAgentInfo (nodes : List Node)
    (fetch : String → DtoKind → Except String AgentReply) : List NodeDTO :=
  nodes.flatMap
    (fun nd => dtoKinds.map (fun k => fetchToDTO nd.Name k (fetch nd.ManIPAdr k)))

/-- The all-404 agent: every endpoint of every node answers HTTP 404. -/
def fetch404 : String → DtoKind → Except String AgentReply :=
  fun manIP _ => .error (manIP ++ ": 404 Not Found")

/-- The three-node topology identities used by the C8 witness (names and
management IPs of the processor/validator test topology). -/
def wCollectNodes : List Node :=
  [{ ID := 3, IPAdr := "192.168.16.3/24", ManIPAdr := "10.20.0.2", Name := "k8s-master" },
   { ID := 2, IPAdr := "192.168.16.2/24", ManIPAdr := "10.20.0.10", Name := "k8s-worker1" },
   { ID := 1, IPAdr := "192.168.16.1/24", ManIPAdr := "10.20.0.11", Name := "k8s-worker2" }]

/-! ## K8s data model and store

Modelled from the spec: the `datastore.K8sDataStore` implementation is not
under `src/`; it is reconstructed from spec §4.2 (name-keyed node map with
AlreadyExists/NotFound semantics, (namespace, name)-keyed pod map). -/

/-- K8s node address entry (Go `Type`/`Address`; `Type` is a reserved word
in Lean, hence `AddrType`). -/
structure NodeAddress where
  AddrType : Nat := 0
  Address : String := ""
deriving DecidableEq, Repr

/-- K8s node system info. -/
structure NodeSystemInfo where
  Machine_ID : String := ""
  System_UUID : String := ""
  Boot_ID : String := ""
  KernelVersion : String := ""
  OperatingSystem : String := ""
  ContainerRuntimeVersion : String := ""
  KubeletVersion : String := ""
  OsImage : String := ""
  Architecture : String := ""
deriving DecidableEq, Repr

/-- K8s node record. -/
structure K8sNode where
  Name : String
  Pod_CIDR : String := ""
  Provider_ID : String := ""
  Addresses : List NodeAddress := []
  NodeInfo : Option NodeSystemInfo := none
deriving DecidableEq, Repr

/-- Pod label. -/
structure PodLabel where
  Key : String := ""
  Value : String := ""
deriving DecidableEq, Repr

/-- Pod record (keyed by namespace and name; `namespace` is a reserved word
in Lean, hence `Nspace`). -/
structure Pod where
  Name : String
  Nspace : String := ""
  Label : List PodLabel := []
  IpAddress : String := ""
  HostIpAddress : String := ""
deriving DecidableEq, Repr

/-- Modelled from the spec: K8s store state. -/
structure K8sDataStore where
  k8sNodeMap : List (String × K8sNode) := []
  podMap : List ((String × String) × Pod) := []
deriving DecidableEq, Repr

/-- Modelled from the spec: an empty K8s store. -/
def NewK8sDataStore : K8sDataStore := {}

/-- Modelled from the spec: `CreateK8sNode` fails with AlreadyExists on a
duplicate name. -/
def CreateK8sNode (s : K8sDataStore) (name podCIDR providerID : String)
    (addresses : List NodeAddress) (info : Option NodeSystemInfo) :
    Except CacheError K8sDataStore :=
  match alookup s.k8sNodeMap name with
  | some _ => .error .alreadyExists
  | none =>
    .ok { s with
      k8sNodeMap := ainsert s.k8sNodeMap name
        { Name := name, Pod_CIDR := podCIDR, Provider_ID := providerID,
          Addresses := addresses, NodeInfo := info } }

/-- Modelled from the spec: `RetrieveK8sNode` with NotFound semantics. -/
def RetrieveK8sNode (s : K8sDataStore) (name : String) : Except CacheError K8sNode :=
  match alookup s.k8sNodeMap name with
  | some kn => .ok kn
  | none => .error .notFound

/-- Modelled from the spec: `DeleteK8sNode` with NotFound semantics. -/
def DeleteK8sNode (s : K8sDataStore) (name : String) : Except CacheError K8sDataStore :=
  match alookup s.k8sNodeMap name with
  | none => .error .notFound
  | some _ => .ok { s with k8sNodeMap := aerase s.k8sNodeMap name }

/-- Prop form of the name ordering on K8s nodes. -/
def k8sNodeLe (a b : K8sNode) : Prop := strLe a.Name b.Name = true

instance : DecidableRel k8sNodeLe := fun a b =>
  inferInstanceAs (Decidable (strLe a.Name b.Name = true))

instance : IsTotal K8sNode k8sNodeLe :=
  ⟨fun a b => charListLe_total a.Name.data b.Name.data⟩

instance : IsTrans K8sNode k8sNodeLe :=
  ⟨fun a b c => charListLe_trans a.Name.data b.Name.data c.Name.data⟩

/-- Modelled from the spec: all K8s nodes, in ascending name order (the
iteration order the validator uses). -/
def RetrieveAllK8sNodes (s : K8sDataStore) : List K8sNode :=
  List.insertionSort k8sNodeLe (s.k8sNodeMap.map Prod.snd)

/-- Modelled from the spec: `CreatePod` keyed by (namespace, name). -/
def CreatePod (s : K8sDataStore) (name nspace : String) (label : List PodLabel)
    (ip hostIp : String) : K8sDataStore :=
  { s with
    podMap := ainsert s.podMap (nspace, name)
      { Name := name, Nspace := nspace, Label := label,
        IpAddress := ip, HostIpAddress := hostIp } }

/-- Modelled from the spec: all pods. -/
def RetrieveAllPods (s : K8sDataStore) : List Pod := s.podMap.map Prod.snd

/-- Run a K8s-store operation, keeping the previous state on error. -/
def applyK (r : Except CacheError K8sDataStore) (s : K8sDataStore) : K8sDataStore :=
  match r with
  | .ok s' => s'
  | .error _ => s

/-! ## Report sink -/

/-- Reserved key for cluster-wide findings (`api.GlobalMsg`). -/
def GlobalMsg : String := "<global>"

/-- Keyed multimap from node name (or `GlobalMsg`) to the ordered finding
list. -/
abbrev Report := List (String × List String)

/-- Append one finding under a key, preserving arrival order per key. -/
def AppendToNodeReport (r : Report) (key msg : String) : Report :=
  match alookup r key with
  | some msgs => ainsert r key (msgs ++ [msg])
  | none => ainsert r key [msg]

/-- Findings recorded under a key. -/
def reportGet (r : Report) (key : String) : List String := (alookup r key).getD []

/-- Apply a list of (key, message) findings in order. -/
def applyFindings (r : Report) (fs : List (String × String)) : Report :=
  fs.foldl (fun acc kv => AppendToNodeReport acc kv.1 kv.2) r

/-! ## Validator

Modelled from the spec: the `validator.Validator` implementation is not
under `src/` (only its test file is).  The four checks of spec §4.6 are
reconstructed from the spec text; nodes are iterated in ascending name
order; on a defect-free topology each check contributes one informational
"check passed" global marker (spec §9, open question b), matching the
base-case count of four global findings asserted by the test. -/

/-- Modelled from the spec (check 1): K8s ↔ VPP node correspondence.  Every
VPP node must resolve to a K8s node by name and vice versa; a missing pair
files a finding on the node and an accompanying global finding; a node-count
discrepancy is itself a global finding, so that a single missing record
yields two global findings (spec scenarios S2/S3). -/
def k8sNodeInfoFindings (vpp : VppDataStore) (k8s : K8sDataStore) :
    List (String × String) :=
  let vppNodes := RetrieveAllNodes vpp
  let k8sNodes := RetrieveAllK8sNodes k8s
  let f1 := vppNodes.flatMap (fun nd =>
    match RetrieveK8sNode k8s nd.Name with
    | .ok _ => []
    | .error _ =>
      [(nd.Name, "vpp node " ++ nd.Name ++ " has no k8s node"),
       (GlobalMsg, "vpp node " ++ nd.Name ++ " has no k8s node")])
  let f2 := k8sNodes.flatMap (fun kn =>
    match RetrieveNode vpp kn.Name with
    | .ok _ => []
    | .error _ =>
      [(kn.Name, "k8s node " ++ kn.Name ++ " has no vpp node"),
       (GlobalMsg, "k8s node " ++ kn.Name ++ " has no vpp node")])
  let f3 :=
    if vppNodes.length = k8sNodes.length then []
    else [(GlobalMsg, "the number of vpp nodes and k8s nodes differ")]
  f1 ++ f2 ++ f3

/-- Modelled from the spec: `ValidateK8sNodeInfo` runs check 1 and writes
its findings to the report. -/
def ValidateK8sNodeInfo (vpp : VppDataStore) (k8s : K8sDataStore) (r : Report) :
    Report :=
  applyFindings r (k8sNodeInfoFindings vpp k8s)

/-- The BVI (loopback) physAddress of a node, when it has one. -/
def nodeBviMac (nd : Node) : Option String :=
  match GetNodeLoopIFInfo nd with
  | .ok ifc => some ifc.PhysAddress
  | .error _ => none

/-- Does some node carry a VXLAN interface that mirrors this tunnel
(source and destination swapped, same VNI)? -/
def vxlanTripleMatched (nodes : List Node) (ifc : NodeInterface) : Bool :=
  nodes.any (fun m => (m.NodeInterfaces.map Prod.snd).any (fun j =>
    j.Vxlan.SrcAddress == ifc.Vxlan.DstAddress &&
      j.Vxlan.DstAddress == ifc.Vxlan.SrcAddress && j.Vxlan.Vni == ifc.Vxlan.Vni))

/-- Modelled from the spec (check 2, per node): the `vxlanBD` bridge domain
must have exactly one member resolving to a loopback (BVI) interface (this
code generation has no BVI flag on members, so the BVI member is recognised
by resolving its swIfIndex to a loopback-type interface); every other member
must be a VXLAN tunnel whose (src, dst, vni) triple is mirrored on a remote
node; every L2 FIB entry of this bridge domain must carry the BVI
physAddress of some node. -/
def l2FindingsForNode (nodes : List Node) (nd : Node) : List (String × String) :=
  match nd.NodeBridgeDomains.filter (fun kv => kv.2.Name == "vxlanBD") with
  | [] => [(nd.Name, "node has no vxlanBD bridge domain")]
  | (bdIdx, bd) :: _ =>
    let isBviMember : BdInterface → Bool := fun mb =>
      match alookup nd.NodeInterfaces mb.SwIfIndex with
      | some ifc => isLoopIf ifc
      | none => false
    let f1 :=
      if (bd.Interfaces.filter isBviMember).length == 1 then []
      else [(nd.Name, "vxlanBD must contain exactly one BVI member")]
    let f2 := (bd.Interfaces.filter (fun mb => !(isBviMember mb))).flatMap (fun mb =>
      match alookup nd.NodeInterfaces mb.SwIfIndex with
      | none => [(nd.Name, "vxlanBD member does not resolve to an interface")]
      | some ifc =>
        if ifc.IfType == 5 then
          if vxlanTripleMatched nodes ifc then []
          else [(nd.Name, "vxlan tunnel " ++ ifc.Name ++ " has no remote counterpart")]
        else [(nd.Name, "vxlanBD member " ++ ifc.Name ++ " is not a vxlan tunnel")])
    let f3 := (nd.NodeL2Fibs.filter (fun kv => kv.2.BridgeDomainIdx == bdIdx)).flatMap
      (fun kv =>
        if nodes.any (fun m => nodeBviMac m == some kv.2.PhysAddress) then []
        else [(nd.Name, "l2fib entry " ++ kv.1 ++ " does not resolve to any BVI")])
    f1 ++ f2 ++ f3

/-- Modelled from the spec: check 2 over all nodes in ascending name order. -/
def l2Findings (vpp : VppDataStore) : List (String × String) :=
  (RetrieveAllNodes vpp).flatMap (l2FindingsForNode (RetrieveAllNodes vpp))

/-- Strip a `/len` subnet suffix from an address string. -/
def stripSubnet (s : String) : String :=
  String.mk (s.data.takeWhile (fun c => !(c == '/')))

/-- The BVI interface of a node with its interface-map index. -/
def nodeBvi (nd : Node) : Option (Nat × NodeInterface) :=
  nd.NodeInterfaces.find? (fun kv => isLoopIf kv.2)

/-- Does this ARP entry name the (ip, mac) pair of node `m`'s BVI? -/
def arpMatchesNodeBvi (m : Node) (ae : NodeIPArpEntry) : Bool :=
  match nodeBvi m with
  | some (_, ifc) =>
    ifc.PhysAddress == ae.MacAddress &&
      (ifc.IPAddresses.map stripSubnet).contains ae.IPAddress
  | none => false

/-- Modelled from the spec (check 3, per node): every static ARP entry on
the BVI interface must name the (ip, mac) pair of another node's BVI
(orphans reported), and for every other node some such entry must exist
(missing entries reported). -/
def arpFindingsForNode (nodes : List Node) (nd : Node) : List (String × String) :=
  match nodeBvi nd with
  | none => [(nd.Name, "node has no BVI (loopback) interface")]
  | some (bviIdx, _) =>
    let bviArps := nd.NodeIPArp.filter (fun ae => ae.Static && ae.Interface == bviIdx)
    let orphans := bviArps.flatMap (fun ae =>
      if nodes.any (fun m => !(m.Name == nd.Name) && arpMatchesNodeBvi m ae) then []
      else [(nd.Name, "arp entry for " ++ ae.IPAddress ++ " matches no remote BVI")])
    let missing := (nodes.filter (fun m => !(m.Name == nd.Name))).flatMap (fun m =>
      if bviArps.any (fun ae => arpMatchesNodeBvi m ae) then []
      else [(nd.Name, "no arp entry for the BVI of node " ++ m.Name)])
    orphans ++ missing

/-- Modelled from the spec: check 3 over all nodes in ascending name order. -/
def arpFindings (vpp : VppDataStore) : List (String × String) :=
  (RetrieveAllNodes vpp).flatMap (arpFindingsForNode (RetrieveAllNodes vpp))

/-- Decimal digit value of a char, if it is a digit. -/
def digitVal (c : Char) : Option Nat :=
  if 48 ≤ c.toNat ∧ c.toNat ≤ 57 then some (c.toNat - 48) else none

/-- Parse a nonempty decimal digit string. -/
def digitsToNat : List Char → Option Nat
  | [] => none
  | ds => ds.foldl (fun acc c =>
      match acc, digitVal c with
      | some a, some d => some (a * 10 + d)
      | _, _ => none) (some 0)

/-- Split a char list on a separator char. -/
def splitOnChar (c : Char) : List Char → List (List Char)
  | [] => [[]]
  | x :: xs =>
    let r := splitOnChar c xs
    if x == c then [] :: r
    else
      match r with
      | [] => [[x]]
      | h :: t => (x :: h) :: t

/-- Parse a dotted-quad IPv4 address to its 32-bit value. -/
def parseIPv4 (s : String) : Option Nat :=
  match (splitOnChar '.' s.data).mapM digitsToNat with
  | some [a, b, c, d] =>
    if a ≤ 255 ∧ b ≤ 255 ∧ c ≤ 255 ∧ d ≤ 255 then
      some (((a * 256 + b) * 256 + c) * 256 + d)
    else none
  | _ => none

/-- Is `ip` inside the `base/len` CIDR block? -/
def ipInsideCIDR (ip cidr : String) : Bool :=
  match splitOnChar '/' cidr.data with
  | [base, lenCs] =>
    match parseIPv4 ip, parseIPv4 (String.mk base), digitsToNat lenCs with
    | some i, some b, some len =>
      if len ≤ 32 then i / 2 ^ (32 - len) == b / 2 ^ (32 - len) else false
    | _, _, _ => false
  | _ => false

/-- Modelled from the spec (check 4, per pod): the pod host IP must appear
in some K8s node's address list; the pod IP must lie within that node's pod
CIDR or coincide with the host IP (host-networked pods). -/
def podFindingsForPod (k8sNodes : List K8sNode) (pod : Pod) : List (String × String) :=
  match k8sNodes.find?
      (fun kn => kn.Addresses.any (fun a => a.Address == pod.HostIpAddress)) with
  | none => [(pod.Name, "pod host ip " ++ pod.HostIpAddress ++ " matches no k8s node")]
  | some kn =>
    if pod.IpAddress == pod.HostIpAddress then []
    else if ipInsideCIDR pod.IpAddress kn.Pod_CIDR then []
    else [(pod.Name, "pod ip " ++ pod.IpAddress ++ " is outside the pod cidr of its node")]

/-- Modelled from the spec: check 4 over all pods. -/
def podFindings (k8s : K8sDataStore) : List (String × String) :=
  (RetrieveAllPods k8s).flatMap (podFindingsForPod (RetrieveAllK8sNodes k8s))

/-- Run one check: write its findings; when it found nothing, record its
informational "check passed" global marker. -/
def checkStep (r : Report) (fs : List (String × String)) (marker : String) : Report :=
  let r' := applyFindings r fs
  if fs.isEmpty then AppendToNodeReport r' GlobalMsg marker else r'

/-- Modelled from the spec: `Validate` runs the four checks of §4.6 in their
fixed order. -/
def Validate (vpp : VppDataStore) (k8s : K8sDataStore) (r : Report) : Report :=
  let r1 := checkStep r (k8sNodeInfoFindings vpp k8s)
    "K8s-VPP node correspondence check passed"
  let r2 := checkStep r1 (l2Findings vpp) "L2 FIB and bridge domain check passed"
  let r3 := checkStep r2 (arpFindings vpp) "ARP and VXLAN overlay check passed"
  let r4 := checkStep r3 (podFindings k8s) "pod placement check passed"
  r4

/-! ## Three-node test topology (validator_test.go `createNodeInfoTestData`,
`createK8sNodeTestData`) -/

/-- Per-node VPP test vector (the `nodeData` struct of the validator test). -/
structure TestNodeData where
  ID : Nat
  nodeName : String
  IPAdr : String
  ManIPAdr : String
  liveness : NodeLiveness
  interfaces : List (Nat × NodeInterface)
  bds : List (Nat × NodeBridgeDomain)
  l2FibTable : List (String × NodeL2FibEntry)
  arpTable : List NodeIPArpEntry
deriving DecidableEq, Repr

/-- VPP record of k8s-master in the defect-free 3-node topology. -/
def k8sMasterData : TestNodeData :=
  { ID := 3, nodeName := "k8s-master", IPAdr := "192.168.16.3/24",
    ManIPAdr := "10.20.0.2",
    liveness :=
      { BuildVersion := "v1.2-alpha-179-g4e2d712", BuildDate := "2018-07-19T09:54+00:00",
        State := 1, StartTime := 1532891958, LastChange := 1532891971,
        LastUpdate := 1532997235, CommitHash := "v1.2-alpha-179-g4e2d712" },
    interfaces :=
      [(0, { VppInternalName := "local0", Name := "local0" }),
       (1, { VppInternalName := "GigabitEthernet0  /8", Name := "GigabitEthernet0/8",
             IfType := 1, Enabled := true, PhysAddress := "08:00:27:c1:dd:42",
             Mtu := 9202, IPAddresses := ["192.168.16.3/24"] }),
       (2, { VppInternalName := "tap0", Name := "tap-vpp2", IfType := 3,
             Enabled := true, PhysAddress := "01:23:45:67:89:42", Mtu := 1500,
             IPAddresses := ["172.30.3.1/24"], Tap := { Version := 2 } }),
       (3, { VppInternalName := "tap1", Name := "tap3aa4d77d27d0bf3", IfType := 3,
             Enabled := true, PhysAddress := "02:fe:fc:07:21:82", Mtu := 1500,
             IPAddresses := ["10.2.1.7/32"], Tap := { Version := 2 } }),
       (4, { VppInternalName := "loop0", Name := "vxlanBVI", Enabled := true,
             PhysAddress := "1a:2b:3c:4d:5e:03", Mtu := 1500,
             IPAddresses := ["192.168.30.3/24"] }),
       (5, { VppInternalName := "vxlan_tunnel0", Name := "vxlan1", IfType := 5,
             Enabled := true,
             Vxlan := { SrcAddress := "192.168.16.3", DstAddress := "192.168.16.1",
                        Vni := 10 } }),
       (6, { VppInternalName := "vxlan_tunnel1", Name := "vxlan2", IfType := 5,
             Enabled := true,
             Vxlan := { SrcAddress := "192.168.16.3", DstAddress := "192.168.16.2",
                        Vni := 10 } })],
    bds :=
      [(1, { Name := "vxlanBD", Forward := true,
             Interfaces := [{ SwIfIndex := 4 }, { SwIfIndex := 5 }, { SwIfIndex := 6 }] })],
    l2FibTable :=
      [("1a:2b:3c:4d:5e:01",
        { BridgeDomainIdx := 1, OutgoingInterfaceSwIfIdx := 5,
          PhysAddress := "1a:2b:3c:4d:5e:01", StaticConfig := true }),
       ("1a:2b:3c:4d:5e:02",
        { BridgeDomainIdx := 1, OutgoingInterfaceSwIfIdx := 6,
          PhysAddress := "1a:2b:3c:4d:5e:02", StaticConfig := true }),
       ("1a:2b:3c:4d:5e:03",
        { BridgeDomainIdx := 1, OutgoingInterfaceSwIfIdx := 4,
          PhysAddress := "1a:2b:3c:4d:5e:03", StaticConfig := true,
          BridgedVirtualInterface := true })],
    arpTable :=
      [{ Interface := 4, IPAddress := "192.168.30.1",
         MacAddress := "1a:2b:3c:4d:5e:01", Static := true },
       { Interface := 4, IPAddress := "192.168.30.2",
         MacAddress := "1a:2b:3c:4d:5e:02", Static := true },
       { Interface := 2, IPAddress := "172.30.3.2",
         MacAddress := "96:ff:16:6e:60:6f", Static := true },
       { Interface := 3, IPAddress := "10.1.3.7",
         MacAddress := "00:00:00:00:00:02", Static := true }] }

/-- VPP record of k8s-worker1 in the defect-free 3-node topology. -/
def k8sWorker1Data : TestNodeData :=
  { ID := 2, nodeName := "k8s-worker1", IPAdr := "192.168.16.2/24",
    ManIPAdr := "10.20.0.10",
    liveness :=
      { BuildVersion := "v1.2-alpha-179-g4e2d712", BuildDate := "2018-07-19T09:54+00:00",
        State := 1, StartTime := 1532649516, LastChange := 1532649517,
        LastUpdate := 1533335002, CommitHash := "v1.2-alpha-179-g4e2d712" },
    interfaces :=
      [(0, { VppInternalName := "local0" }),
       (1, { VppInternalName := "GigabitEthernet0/8", Name := "GigabitEthernet0/8",
             IfType := 1, Enabled := true, PhysAddress := "08:00:27:11:e4:c4",
             Mtu := 9202, IPAddresses := ["192.168.16.1/24"] }),
       (2, { VppInternalName := "tap0", Name := "tap-vpp2", IfType := 3,
             Enabled := true, PhysAddress := "01:23:45:67:89:42", Mtu := 1500,
             IPAddresses := ["172.30.1.1/24"], Tap := { Version := 2 } }),
       (3, { VppInternalName := "loop0", Name := "vxlanBVI", Enabled := true,
             PhysAddress := "1a:2b:3c:4d:5e:02", Mtu := 1500,
             IPAddresses := ["192.168.30.2/24"] }),
       (4, { VppInternalName := "vxlan_tunnel0", Name := "vxlan1", IfType := 5,
             Enabled := true,
             Vxlan := { SrcAddress := "192.168.16.2", DstAddress := "192.168.16.1",
                        Vni := 10 } }),
       (5, { VppInternalName := "vxlan_tunnel1", Name := "vxlan3", IfType := 5,
             Enabled := true,
             Vxlan := { SrcAddress := "192.168.16.2", DstAddress := "192.168.16.3",
                        Vni := 10 } })],
    bds :=
      [(1, { Name := "vxlanBD", Forward := true,
             Interfaces := [{ SwIfIndex := 3 }, { SwIfIndex := 4 }, { SwIfIndex := 5 }] })],
    l2FibTable :=
      [("1a:2b:3c:4d:5e:01",
        { BridgeDomainIdx := 1, OutgoingInterfaceSwIfIdx := 4,
          PhysAddress := "1a:2b:3c:4d:5e:01", StaticConfig := true }),
       ("1a:2b:3c:4d:5e:02",
        { BridgeDomainIdx := 1, OutgoingInterfaceSwIfIdx := 3,
          PhysAddress := "1a:2b:3c:4d:5e:02", StaticConfig := true }),
       ("1a:2b:3c:4d:5e:03",
        { BridgeDomainIdx := 1, OutgoingInterfaceSwIfIdx := 5,
          PhysAddress := "1a:2b:3c:4d:5e:03", StaticConfig := true,
          BridgedVirtualInterface := true })],
    arpTable :=
      [{ Interface := 3, IPAddress := "192.168.30.1",
         MacAddress := "1a:2b:3c:4d:5e:01", Static := true },
       { Interface := 3, IPAddress := "192.168.30.3",
         MacAddress := "1a:2b:3c:4d:5e:03", Static := true }] }

/-- VPP record of k8s-worker2 in the defect-free 3-node topology. -/
def k8sWorker2Data : TestNodeData :=
  { ID := 1, nodeName := "k8s-worker2", IPAdr := "192.168.16.1/24",
    ManIPAdr := "10.20.0.11",
    liveness :=
      { BuildVersion := "v1.2-alpha-179-g4e2d712", BuildDate := "2018-07-19T09:54+00:00",
        State := 1, StartTime := 1532727081, LastChange := 1532727082,
        LastUpdate := 1533336124, CommitHash := "v1.2-alpha-179-g4e2d712" },
    interfaces :=
      [(0, { VppInternalName := "local0" }),
       (1, { VppInternalName := "GigabitEthernet0/8", Name := "GigabitEthernet0/8",
             IfType := 1, Enabled := true, PhysAddress := "08:00:27:1b:02:8c",
             Mtu := 9202, IPAddresses := ["192.168.16.2/24"] }),
       (2, { VppInternalName := "tap0", Name := "tap-vpp2", IfType := 3,
             Enabled := true, PhysAddress := "01:23:45:67:89:42", Mtu := 1500,
             IPAddresses := ["172.30.3.1/24"], Tap := { Version := 2 } }),
       (3, { VppInternalName := "loop0", Name := "vxlanBVI", Enabled := true,
             PhysAddress := "1a:2b:3c:4d:5e:01", Mtu := 1500,
             IPAddresses := ["192.168.30.1/24"] }),
       (4, { VppInternalName := "vxlan_tunnel0", Name := "vxlan2", IfType := 5,
             Enabled := true,
             Vxlan := { SrcAddress := "192.168.16.1", DstAddress := "192.168.16.2",
                        Vni := 10 } }),
       (5, { VppInternalName := "vxlan_tunnel1", Name := "vxlan3", IfType := 5,
             Enabled := true,
             Vxlan := { SrcAddress := "192.168.16.1", DstAddress := "192.168.16.3",
                        Vni := 10 } })],
    bds :=
      [(1, { Name := "vxlanBD", Forward := true,
             Interfaces := [{ SwIfIndex := 3 }, { SwIfIndex := 4 }, { SwIfIndex := 5 }] })],
    l2FibTable :=
      [("1a:2b:3c:4d:5e:01",
        { BridgeDomainIdx := 1, OutgoingInterfaceSwIfIdx := 3,
          PhysAddress := "1a:2b:3c:4d:5e:01", StaticConfig := true }),
       ("1a:2b:3c:4d:5e:02",
        { BridgeDomainIdx := 1, OutgoingInterfaceSwIfIdx := 4,
          PhysAddress := "1a:2b:3c:4d:5e:02", StaticConfig := true }),
       ("1a:2b:3c:4d:5e:03",
        { BridgeDomainIdx := 1, OutgoingInterfaceSwIfIdx := 5,
          PhysAddress := "1a:2b:3c:4d:5e:03", StaticConfig := true,
          BridgedVirtualInterface := true })],
    arpTable :=
      [{ Interface := 3, IPAddress := "192.168.30.2",
         MacAddress := "1a:2b:3c:4d:5e:02", Static := true },
       { Interface := 3, IPAddress := "192.168.30.3",
         MacAddress := "1a:2b:3c:4d:5e:03", Static := true }] }

/-- Install one test node into the VPP store (the test's
`populateNodeInfoDataInCache` body: create, then the five setters). -/
def populateNodeInfo (s : VppDataStore) (d : TestNodeData) : VppDataStore :=
  let s1 := applyE (CreateNode s d.ID d.nodeName d.IPAdr d.ManIPAdr) s
  let s2 := applyE (SetNodeLiveness s1 d.nodeName (some d.liveness)) s1
  let s3 := applyE (SetNodeInterfaces s2 d.nodeName d.interfaces) s2
  let s4 := applyE (SetNodeBridgeDomain s3 d.nodeName d.bds) s3
  let s5 := applyE (SetNodeL2Fibs s4 d.nodeName d.l2FibTable) s4
  applyE (SetNodeIPARPs s5 d.nodeName d.arpTable) s5

/-- The defect-free VPP-side topology. -/
def cleanVpp : VppDataStore :=
  [k8sMasterData, k8sWorker1Data, k8sWorker2Data].foldl populateNodeInfo
    NewVppDataStore

/-- K8s record of k8s-master. -/
def k8sMasterK8s : K8sNode :=
  { Name := "k8s-master", Pod_CIDR := "10.0.0.0/24", Provider_ID := "",
    Addresses := [{ AddrType := 3, Address := "10.20.0.2" },
                  { AddrType := 1, Address := "k8s-master" }],
    NodeInfo := some
      { Machine_ID := "91550c3d3d1bca06c11d4f64575584db",
        System_UUID := "AC7BF39D-C7B5-4FB8-A2AD-32BD08DB8325",
        Boot_ID := "be649475-5bf4-4f20-bb3c-7a98610d375a",
        KernelVersion := "4.4.0-21-generic", OperatingSystem := "Ubuntu 16.04 LTS",
        ContainerRuntimeVersion := "docker://18.6.0", KubeletVersion := "v1.10.5",
        OsImage := "linux", Architecture := "amd64" } }

/-- K8s record of k8s-worker1. -/
def k8sWorker1K8s : K8sNode :=
  { Name := "k8s-worker1", Pod_CIDR := "10.0.1.0/24", Provider_ID := "",
    Addresses := [{ AddrType := 3, Address := "10.20.0.10" },
                  { AddrType := 1, Address := "k8s-worker1" }],
    NodeInfo := some
      { Machine_ID := "91550c3d3d1bca06c11d4f64575584db",
        System_UUID := "EF76A9B2-4AE5-4372-96EF-FF5B49C6EE99",
        Boot_ID := "86e57d29-8525-48a0-a0a1-99cd06b415b2",
        KernelVersion := "4.4.0-21-generic", OperatingSystem := "Ubuntu 16.04 LTS",
        ContainerRuntimeVersion := "docker://18.6.0", KubeletVersion := "v1.10.5",
        OsImage := "linux", Architecture := "amd64" } }

/-- K8s record of k8s-worker2. -/
def k8sWorker2K8s : K8sNode :=
  { Name := "k8s-worker2", Pod_CIDR := "10.0.7.0/24", Provider_ID := "",
    Addresses := [{ AddrType := 3, Address := "10.20.0.11" },
                  { AddrType := 1, Address := "k8s-worker2" }],
    NodeInfo := some
      { Machine_ID := "91550c3d3d1bca06c11d4f64575584db",
        System_UUID := "E82E94E3-39C8-42A7-BD4D-9D8BDAF5BD59",
        Boot_ID := "cd51dc78-b400-4a39-a144-ae1d1f7391a1",
        KernelVersion := "4.4.0-21-generic", OperatingSystem := "Ubuntu 16.04 LTS",
        ContainerRuntimeVersion := "docker://18.6.0", KubeletVersion := "v1.10.5",
        OsImage := "linux", Architecture := "amd64" } }

/-- Install one K8s node record into the K8s store. -/
def populateK8sNode (s : K8sDataStore) (kn : K8sNode) : K8sDataStore :=
  applyK (CreateK8sNode s kn.Name kn.Pod_CIDR kn.Provider_ID kn.Addresses kn.NodeInfo) s

/-- The matching K8s-side topology. -/
def cleanK8s : K8sDataStore :=
  [k8sMasterK8s, k8sWorker1K8s, k8sWorker2K8s].foldl populateK8sNode NewK8sDataStore

/-- Topology with the VPP record for k8s-master deleted (scenario S2). -/
def vppMissingMaster : VppDataStore := applyE (DeleteNode cleanVpp "k8s-master") cleanVpp

/-- Topology with the K8s record for k8s-master deleted (scenario S3). -/
def k8sMissingMaster : K8sDataStore := applyK (DeleteK8sNode cleanK8s "k8s-master") cleanK8s

/-! ## Theorems -/



/-! ## Association-list lemmas -/

theorem alookup_ainsert_self [DecidableEq κ] (m : List (κ × α)) (k : κ) (v : α) :
    alookup (ainsert m k v) k = some v := by
  simp [ainsert, alookup]

theorem alookup_aerase_ne [DecidableEq κ] (m : List (κ × α)) (k k' : κ)
    (h : k ≠ k') : alookup (aerase m k) k' = alookup m k' := by
  induction m with
  | nil => rfl
  | cons kv rest ih =>
    obtain ⟨k0, v0⟩ := kv
    by_cases hk : k0 = k
    · subst hk
      simp [aerase, alookup, h, ih]
    · by_cases hk' : k0 = k'
      · subst hk'
        simp [aerase, alookup, hk]
      · simp [aerase, alookup, hk, hk', ih]

theorem alookup_ainsert_ne [DecidableEq κ] (m : List (κ × α)) (k k' : κ) (v : α)
    (h : k ≠ k') : alookup (ainsert m k v) k' = alookup m k' := by
  simp only [ainsert, alookup, if_neg h]
  exact alookup_aerase_ne m k k' h

theorem alookup_aremoveValue [DecidableEq κ] [DecidableEq α]
    (m : List (κ × α)) (target : α) (k : κ) :
    alookup (aremoveValue m target) k ≠ some target := by
  induction m with
  | nil => simp [aremoveValue, alookup]
  | cons kv rest ih =>
    by_cases hv : kv.2 = target
    · simpa [aremoveValue, hv] using ih
    · by_cases hk : kv.1 = k
      · simp [aremoveValue, hv, alookup, hk]
      · simpa [aremoveValue, hv, alookup, hk] using ih

/-! ## Claims C6, C7, C9 — VPP store contract -/

/-- C6: for every cache state and inputs, `CreateNode` fails with
AlreadyExists when a node with that name is present (producing no new state,
so the primary map and all secondary indexes are unchanged); when the name is
absent it succeeds and the new node is retrievable both by name from the
primary map and by its ipAddr from the GigE-IP secondary index, while every
other name resolves as before. -/
theorem CreateNode_spec (s : VppDataStore) (id : Nat) (name ipAddr manIpAddr : String) :
    ((∃ nd, RetrieveNode s name = .ok nd) →
      CreateNode s id name ipAddr manIpAddr = .error .alreadyExists) ∧
    (RetrieveNode s name = .error .notFound →
      ∃ s', CreateNode s id name ipAddr manIpAddr = .ok s' ∧
        RetrieveNode s' name =
          .ok { ID := id, IPAdr := ipAddr, ManIPAdr := manIpAddr, Name := name } ∧
        RetrieveNodeByGigEIPAddr s' ipAddr =
          .ok { ID := id, IPAdr := ipAddr, ManIPAdr := manIpAddr, Name := name } ∧
        (∀ other, other ≠ name → RetrieveNode s' other = RetrieveNode s other)) := by
  constructor
  · rintro ⟨nd, hnd⟩
    unfold RetrieveNode at hnd
    unfold CreateNode
    cases h : alookup s.nMap name with
    | none => rw [h] at hnd; cases hnd
    | some nd' => rfl
  · intro habs
    unfold RetrieveNode at habs
    cases h : alookup s.nMap name with
    | some nd' => rw [h] at habs; cases habs
    | none =>
      refine ⟨_, by unfold CreateNode; rw [h], ?_, ?_, ?_⟩
      · simp [RetrieveNode, alookup_ainsert_self]
      · simp [RetrieveNodeByGigEIPAddr, retrieveNodeByIdx, RetrieveNode,
          alookup_ainsert_self]
      · intro other hne
        simp only [RetrieveNode]
        rw [alookup_ainsert_ne _ _ _ _ (fun he => hne he.symm)]

/-- C6 witness: on the empty store the name `k8s_master` is absent, and
creating it succeeds with the stated retrievals. -/
theorem CreateNode_spec_witness :
    RetrieveNode NewVppDataStore "k8s_master" = .error .notFound ∧
    (∃ s', CreateNode NewVppDataStore 1 "k8s_master" "10" "20" = .ok s' ∧
      RetrieveNode s' "k8s_master" =
        .ok { ID := 1, IPAdr := "10", ManIPAdr := "20", Name := "k8s_master" } ∧
      RetrieveNodeByGigEIPAddr s' "10" =
        .ok { ID := 1, IPAdr := "10", ManIPAdr := "20", Name := "k8s_master" } ∧
      (∀ other, other ≠ "k8s_master" →
        RetrieveNode s' other = RetrieveNode NewVppDataStore other)) :=
  ⟨rfl, (CreateNode_spec NewVppDataStore 1 "k8s_master" "10" "20").2 rfl⟩

/-- C7: `RetrieveAllNodes` returns exactly the stored nodes (the values of
the primary map), sorted ascending by node name. -/
theorem RetrieveAllNodes_sortedByName (s : VppDataStore) :
    List.Sorted nodeLe (RetrieveAllNodes s) ∧
    ∀ nd : Node, nd ∈ RetrieveAllNodes s ↔ nd ∈ s.nMap.map Prod.snd :=
  ⟨List.sorted_insertionSort nodeLe (s.nMap.map Prod.snd),
   fun _ => (List.perm_insertionSort nodeLe (s.nMap.map Prod.snd)).mem_iff⟩

/-- C9: `UpdateNode` fails with NotFound when the name is absent; when the
node exists it succeeds and the stored node afterwards differs from the old
one exactly in the IP and management-IP fields — the id and every child
collection (liveness, interfaces, bridge domains, L2 FIBs, ARPs, telemetry)
are those of the old record — and every other name resolves as before. -/
theorem UpdateNode_spec (s : VppDataStore) (id : Nat) (name ipAddr manIpAddr : String) :
    (RetrieveNode s name = .error .notFound →
      UpdateNode s id name ipAddr manIpAddr = .error .notFound) ∧
    (∀ nd, RetrieveNode s name = .ok nd →
      ∃ s', UpdateNode s id name ipAddr manIpAddr = .ok s' ∧
        RetrieveNode s' name = .ok { nd with IPAdr := ipAddr, ManIPAdr := manIpAddr } ∧
        (∀ other, other ≠ name → RetrieveNode s' other = RetrieveNode s other)) := by
  constructor
  · intro habs
    unfold RetrieveNode at habs
    unfold UpdateNode
    cases h : alookup s.nMap name with
    | some nd' => rw [h] at habs; cases habs
    | none => rfl
  · intro nd hnd
    unfold RetrieveNode at hnd
    cases h : alookup s.nMap name with
    | none => rw [h] at hnd; cases hnd
    | some nd' =>
      rw [h] at hnd
      have heq : nd' = nd := by injection hnd
      subst heq
      refine ⟨_, by unfold UpdateNode; rw [h], ?_, ?_⟩
      · simp [RetrieveNode, alookup_ainsert_self]
      · intro other hne
        simp only [RetrieveNode]
        rw [alookup_ainsert_ne _ _ _ _ (fun he => hne he.symm)]

/-- C9 witness: update an existing single-node store; the stored id (1) and
empty child collections survive, only the IPs change. -/
theorem UpdateNode_spec_witness :
    RetrieveNode (applyE (CreateNode NewVppDataStore 1 "k8s_master" "10" "10") NewVppDataStore)
        "k8s_master" =
      .ok { ID := 1, IPAdr := "10", ManIPAdr := "10", Name := "k8s_master" } ∧
    (∃ s', UpdateNode
        (applyE (CreateNode NewVppDataStore 1 "k8s_master" "10" "10") NewVppDataStore)
        1 "k8s_master" "20" "20" = .ok s' ∧
      RetrieveNode s' "k8s_master" =
        .ok { ID := 1, IPAdr := "20", ManIPAdr := "20", Name := "k8s_master" } ∧
      (∀ other, other ≠ "k8s_master" →
        RetrieveNode s' other =
          RetrieveNode (applyE (CreateNode NewVppDataStore 1 "k8s_master" "10" "10")
            NewVppDataStore) other)) :=
  ⟨rfl, (UpdateNode_spec
      (applyE (CreateNode NewVppDataStore 1 "k8s_master" "10" "10") NewVppDataStore)
      1 "k8s_master" "20" "20").2
    { ID := 1, IPAdr := "10", ManIPAdr := "10", Name := "k8s_master" } rfl⟩

/-! ## Claim C3 — loopback index rebuild -/

theorem alookup_insertAllIdx (keys : List String) (m : List (String × String))
    (name k : String) :
    alookup (insertAllIdx m keys name) k = some name ↔
      (k ∈ keys ∨ alookup m k = some name) := by
  induction keys generalizing m with
  | nil => simp [insertAllIdx]
  | cons a keys ih =>
    have hstep : insertAllIdx m (a :: keys) name =
        insertAllIdx (ainsert m a name) keys name := rfl
    rw [hstep, ih]
    by_cases hka : k = a
    · subst hka
      simp [alookup_ainsert_self]
    · rw [alookup_ainsert_ne _ _ _ _ (fun he => hka he.symm)]
      simp [List.mem_cons, hka]

theorem alookup_insertAllIdx_notMem (keys : List String) (m : List (String × String))
    (name k : String) (h : k ∉ keys) :
    alookup (insertAllIdx m keys name) k = alookup m k := by
  induction keys generalizing m with
  | nil => rfl
  | cons a keys ih =>
    have hstep : insertAllIdx m (a :: keys) name =
        insertAllIdx (ainsert m a name) keys name := rfl
    rw [hstep, ih _ (fun hm => h (List.mem_cons_of_mem a hm))]
    exact alookup_ainsert_ne _ _ _ _ (fun he => h (he ▸ List.mem_cons_self a keys))

theorem alookup_aremoveValue_of_none [DecidableEq κ] [DecidableEq α]
    (m : List (κ × α)) (target : α) (k : κ) (h : alookup m k = none) :
    alookup (aremoveValue m target) k = none := by
  induction m with
  | nil => rfl
  | cons kv rest ih =>
    obtain ⟨k0, v0⟩ := kv
    by_cases hk : k0 = k
    · simp [alookup, hk] at h
    · simp only [alookup, if_neg hk] at h
      by_cases hv : v0 = target
      · simpa [aremoveValue, hv] using ih h
      · simpa [aremoveValue, hv, alookup, hk] using ih h

theorem alookup_none_of_notMem_keys [DecidableEq κ] (m : List (κ × α)) (k : κ)
    (h : k ∉ m.map Prod.fst) : alookup m k = none := by
  induction m with
  | nil => rfl
  | cons kv rest ih =>
    have hk : kv.1 ≠ k := fun he => h (by simp [he])
    simp only [alookup, if_neg hk]
    exact ih (fun hm => h (by simp [hm]))

theorem alookup_aremoveValue_of_some [DecidableEq κ] [DecidableEq α]
    (m : List (κ × α)) (target : α) (k : κ)
    (hnd : (m.map Prod.fst).Nodup) (h : alookup m k = some target) :
    alookup (aremoveValue m target) k = none := by
  induction m with
  | nil => cases h
  | cons kv rest ih =>
    obtain ⟨k0, v0⟩ := kv
    simp only [List.map_cons, List.nodup_cons] at hnd
    by_cases hk : k0 = k
    · subst hk
      have h' : v0 = target := by simpa [alookup] using h
      subst h'
      simp only [aremoveValue, if_pos rfl]
      exact alookup_aremoveValue_of_none _ _ _
        (alookup_none_of_notMem_keys rest k0 hnd.1)
    · simp only [alookup, if_neg hk] at h
      by_cases hv : v0 = target
      · simpa [aremoveValue, hv] using ih hnd.2 h
      · simpa [aremoveValue, hv, alookup, hk] using ih hnd.2 h

/-- C3: after `SetNodeInterfaces(n, ifs)` succeeds, the loopback-IP index has
a row pointing to `n` exactly for the IP addresses of interfaces of `ifs`
whose vppInternalName matches the loopback pattern, and the loopback-MAC
index exactly for their physAddresses; rows from the previous interface set
are removed, so (for a well-formed index, keys bound at most once) a
previously indexed loopback address that is absent from the new interface
set now makes `RetrieveNodeByLoopIPAddr` return NotFound. -/
theorem SetNodeInterfaces_rebuildsLoopIndexes (s : VppDataStore) (n : String)
    (ifs : List (Nat × NodeInterface)) (s' : VppDataStore)
    (h : SetNodeInterfaces s n ifs = .ok s') :
    (∀ k, alookup s'.loopIPMap k = some n ↔ k ∈ loopIPsOf ifs) ∧
    (∀ k, alookup s'.loopMACMap k = some n ↔ k ∈ loopMACsOf ifs) ∧
    ((s.loopIPMap.map Prod.fst).Nodup →
      ∀ k, k ∉ loopIPsOf ifs → alookup s.loopIPMap k = some n →
        RetrieveNodeByLoopIPAddr s' k = .error .notFound) := by
  unfold SetNodeInterfaces at h
  cases hn : alookup s.nMap n with
  | none => rw [hn] at h; cases h
  | some nd =>
    rw [hn] at h
    have hs' : s' = { s with
        nMap := ainsert s.nMap n { nd with NodeInterfaces := ifs },
        loopIPMap := insertAllIdx (aremoveValue s.loopIPMap n) (loopIPsOf ifs) n,
        loopMACMap := insertAllIdx (aremoveValue s.loopMACMap n) (loopMACsOf ifs) n } := by
      injection h with h'; exact h'.symm
    subst hs'
    refine ⟨?_, ?_, ?_⟩
    · intro k
      rw [show ({ s with
          nMap := ainsert s.nMap n { nd with NodeInterfaces := ifs },
          loopIPMap := insertAllIdx (aremoveValue s.loopIPMap n) (loopIPsOf ifs) n,
          loopMACMap := insertAllIdx (aremoveValue s.loopMACMap n) (loopMACsOf ifs) n
          : VppDataStore }).loopIPMap = insertAllIdx (aremoveValue s.loopIPMap n)
            (loopIPsOf ifs) n from rfl]
      rw [alookup_insertAllIdx]
      have : alookup (aremoveValue s.loopIPMap n) k ≠ some n :=
        alookup_aremoveValue s.loopIPMap n k
      constructor
      · rintro (hk | hk)
        · exact hk
        · exact absurd hk this
      · exact fun hk => Or.inl hk
    · intro k
      rw [show ({ s with
          nMap := ainsert s.nMap n { nd with NodeInterfaces := ifs },
          loopIPMap := insertAllIdx (aremoveValue s.loopIPMap n) (loopIPsOf ifs) n,
          loopMACMap := insertAllIdx (aremoveValue s.loopMACMap n) (loopMACsOf ifs) n
          : VppDataStore }).loopMACMap = insertAllIdx (aremoveValue s.loopMACMap n)
            (loopMACsOf ifs) n from rfl]
      rw [alookup_insertAllIdx]
      have : alookup (aremoveValue s.loopMACMap n) k ≠ some n :=
        alookup_aremoveValue s.loopMACMap n k
      constructor
      · rintro (hk | hk)
        · exact hk
        · exact absurd hk this
      · exact fun hk => Or.inl hk
    · intro hnd k hkabs hkold
      have hip : alookup (insertAllIdx (aremoveValue s.loopIPMap n) (loopIPsOf ifs) n) k
          = none := by
        rw [alookup_insertAllIdx_notMem _ _ _ _ hkabs]
        exact alookup_aremoveValue_of_some s.loopIPMap n k hnd hkold
      unfold RetrieveNodeByLoopIPAddr retrieveNodeByIdx
      rw [show ({ s with
          nMap := ainsert s.nMap n { nd with NodeInterfaces := ifs },
          loopIPMap := insertAllIdx (aremoveValue s.loopIPMap n) (loopIPsOf ifs) n,
          loopMACMap := insertAllIdx (aremoveValue s.loopMACMap n) (loopMACsOf ifs) n
          : VppDataStore }).loopIPMap = insertAllIdx (aremoveValue s.loopIPMap n)
            (loopIPsOf ifs) n from rfl]
      rw [hip]

/-- C3 witness: uploading a loop0 interface with ip `1.2.3.4` indexes it for
the node, and a second upload without loop0 makes the lookup of the old
address return NotFound (spec scenario S6). -/
theorem SetNodeInterfaces_rebuildsLoopIndexes_witness :
    (SetNodeInterfaces wS0 "k8s_master" wIfsLoop = .ok wS1 ∧
      (alookup wS1.loopIPMap "1.2.3.4" = some "k8s_master" ↔
        "1.2.3.4" ∈ loopIPsOf wIfsLoop)) ∧
    (SetNodeInterfaces wS1 "k8s_master" wIfsNoLoop = .ok wS2 ∧
      (wS1.loopIPMap.map Prod.fst).Nodup ∧
      "1.2.3.4" ∉ loopIPsOf wIfsNoLoop ∧
      alookup wS1.loopIPMap "1.2.3.4" = some "k8s_master" ∧
      RetrieveNodeByLoopIPAddr wS2 "1.2.3.4" = .error .notFound) :=
  ⟨⟨rfl, (SetNodeInterfaces_rebuildsLoopIndexes wS0 "k8s_master" wIfsLoop wS1 rfl).1
      "1.2.3.4"⟩,
   ⟨rfl, by decide, by decide, rfl,
    (SetNodeInterfaces_rebuildsLoopIndexes wS1 "k8s_master" wIfsNoLoop wS2 rfl).2.2
      (by decide) "1.2.3.4" (by decide) rfl⟩⟩

theorem alookup_aerase_self [DecidableEq κ] (m : List (κ × α)) (k : κ) :
    alookup (aerase m k) k = none := by
  induction m with
  | nil => rfl
  | cons kv rest ih =>
    by_cases hk : kv.1 = k
    · simpa [aerase, hk] using ih
    · simpa [aerase, alookup, hk] using ih

theorem mem_aerase [DecidableEq κ] (m : List (κ × α)) (k : κ) (kv : κ × α)
    (h : kv ∈ aerase m k) : kv ∈ m := by
  induction m with
  | nil => cases h
  | cons kv0 rest ih =>
    by_cases hk : kv0.1 = k
    · simp only [aerase, if_pos hk] at h
      exact List.mem_cons_of_mem _ (ih h)
    · simp only [aerase, if_neg hk, List.mem_cons] at h
      rcases h with h | h
      · exact h ▸ List.mem_cons_self _ _
      · exact List.mem_cons_of_mem _ (ih h)

theorem alookup_mem [DecidableEq κ] (m : List (κ × α)) (k : κ) (v : α)
    (h : alookup m k = some v) : (k, v) ∈ m := by
  induction m with
  | nil => cases h
  | cons kv rest ih =>
    by_cases hk : kv.1 = k
    · simp only [alookup, if_pos hk, Option.some_inj] at h
      have : (k, v) = kv := by
        obtain ⟨k0, v0⟩ := kv
        simp at hk h
        rw [hk, h]
      rw [this]
      exact List.mem_cons_self _ _
    · simp only [alookup, if_neg hk] at h
      exact List.mem_cons_of_mem _ (ih h)

theorem retrieved_name (s : VppDataStore) (str : String) (nd : Node)
    (hWF : NMapNamed s) (h : RetrieveNode s str = .ok nd) : nd.Name = str := by
  unfold RetrieveNode at h
  cases hl : alookup s.nMap str with
  | none => rw [hl] at h; cases h
  | some nd' =>
    rw [hl] at h
    have : nd' = nd := by injection h
    subst this
    exact hWF (str, nd') (alookup_mem _ _ _ hl)

theorem nMapNamed_applyE_delete (s : VppDataStore) (x : String)
    (hWF : NMapNamed s) : NMapNamed (applyE (DeleteNode s x) s) := by
  unfold DeleteNode applyE
  cases hl : alookup s.nMap x with
  | none => exact hWF
  | some nd => exact fun kv hm => hWF kv (mem_aerase _ _ _ hm)

theorem retrieve_applyE_delete_ne (s : VppDataStore) (x q : String) (hne : q ≠ x) :
    RetrieveNode (applyE (DeleteNode s x) s) q = RetrieveNode s q := by
  unfold DeleteNode applyE
  cases hl : alookup s.nMap x with
  | none => rfl
  | some nd =>
    unfold RetrieveNode
    rw [show (alookup (aerase s.nMap x) q) = alookup s.nMap q from
      alookup_aerase_ne _ _ _ (fun he => hne he.symm)]

theorem alookup_applyE_delete_none (s : VppDataStore) (x q : String)
    (h : alookup s.nMap q = none) :
    alookup (applyE (DeleteNode s x) s).nMap q = none := by
  unfold DeleteNode applyE
  cases hl : alookup s.nMap x with
  | none => exact h
  | some nd =>
    by_cases hq : x = q
    · subst hq; exact alookup_aerase_self _ _
    · rw [show (alookup (aerase s.nMap x) q) = alookup s.nMap q from
        alookup_aerase_ne _ _ _ hq]
      exact h

theorem alookup_deleteVppNode_none (l : List String) (t : VppDataStore) (q : String)
    (h : alookup t.nMap q = none) :
    alookup (DeleteVppNode t l).nMap q = none := by
  induction l generalizing t with
  | nil => exact h
  | cons str rest ih =>
    unfold DeleteVppNode
    cases hr : RetrieveNode t str with
    | error e => exact h
    | ok node => exact ih _ (alookup_applyE_delete_none _ _ _ h)

theorem deleteVppNode_append (pre : List String) (s : VppDataStore)
    (rest : List String) (hWF : NMapNamed s) (hpre : seqDeletable s pre = true) :
    DeleteVppNode s (pre ++ rest) = DeleteVppNode (DeleteVppNode s pre) rest := by
  induction pre generalizing s with
  | nil => rfl
  | cons p pre' ih =>
    cases hr : RetrieveNode s p with
    | error e => simp [seqDeletable, hr] at hpre
    | ok node =>
      have hpre' : seqDeletable (applyE (DeleteNode s node.Name) s) pre' = true := by
        simpa [seqDeletable, hr] using hpre
      show DeleteVppNode s (p :: (pre' ++ rest)) = _
      simp only [DeleteVppNode, hr]
      exact ih _ (nMapNamed_applyE_delete s node.Name hWF) hpre'

theorem deleteVppNode_frame (pre : List String) (s : VppDataStore)
    (hWF : NMapNamed s) (hpre : seqDeletable s pre = true) :
    ∀ q, q ∉ pre → RetrieveNode (DeleteVppNode s pre) q = RetrieveNode s q := by
  induction pre generalizing s with
  | nil => intro q _; rfl
  | cons p pre' ih =>
    intro q hq
    cases hr : RetrieveNode s p with
    | error e => simp [seqDeletable, hr] at hpre
    | ok node =>
      have hpre' : seqDeletable (applyE (DeleteNode s node.Name) s) pre' = true := by
        simpa [seqDeletable, hr] using hpre
      have hname : node.Name = p := retrieved_name s p node hWF hr
      simp only [DeleteVppNode, hr]
      rw [ih _ (nMapNamed_applyE_delete s node.Name hWF) hpre' q
        (fun hm => hq (List.mem_cons_of_mem _ hm))]
      rw [retrieve_applyE_delete_ne s node.Name q
        (fun he => hq (by rw [he, hname]; exact List.mem_cons_self _ _))]

theorem deleteVppNode_deleted (pre : List String) (s : VppDataStore)
    (hWF : NMapNamed s) (hpre : seqDeletable s pre = true) :
    ∀ p ∈ pre, RetrieveNode (DeleteVppNode s pre) p = .error .notFound := by
  induction pre generalizing s with
  | nil => intro p hp; cases hp
  | cons p0 pre' ih =>
    intro p hp
    cases hr : RetrieveNode s p0 with
    | error e => simp [seqDeletable, hr] at hpre
    | ok node =>
      have hpre' : seqDeletable (applyE (DeleteNode s node.Name) s) pre' = true := by
        simpa [seqDeletable, hr] using hpre
      have hname : node.Name = p0 := retrieved_name s p0 node hWF hr
      simp only [DeleteVppNode, hr]
      rcases List.mem_cons.mp hp with hcase | hcase
      · subst hcase
        have hgone : alookup (applyE (DeleteNode s node.Name) s).nMap p = none := by
          unfold RetrieveNode at hr
          unfold DeleteNode applyE
          rw [hname]
          cases hl : alookup s.nMap p with
          | none => rw [hl] at hr; cases hr
          | some nd => exact alookup_aerase_self _ _
        have := alookup_deleteVppNode_none pre' _ p hgone
        unfold RetrieveNode
        rw [this]
      · exact ih _ (nMapNamed_applyE_delete s node.Name hWF) hpre' p hcase

/-- C10: `DeleteVppNode(nodenames)` stops at the first name not present in
the cache and returns immediately: the result equals the state after
deleting only the names before the missing one (so the missing name and all
names after it are untouched — any name outside the deleted ones resolves
exactly as before), while all names before it have been deleted. -/
theorem DeleteVppNode_stopsAtFirstMissing (s : VppDataStore)
    (pre post : List String) (bad : String)
    (hWF : NMapNamed s) (hpre : seqDeletable s pre = true)
    (hbad : RetrieveNode (DeleteVppNode s pre) bad = .error .notFound) :
    DeleteVppNode s (pre ++ bad :: post) = DeleteVppNode s pre ∧
    (∀ p ∈ pre, RetrieveNode (DeleteVppNode s (pre ++ bad :: post)) p =
      .error .notFound) ∧
    (∀ q, q ∉ pre → RetrieveNode (DeleteVppNode s (pre ++ bad :: post)) q =
      RetrieveNode s q) := by
  have ha : DeleteVppNode s (pre ++ bad :: post) = DeleteVppNode s pre := by
    rw [deleteVppNode_append pre s (bad :: post) hWF hpre]
    simp only [DeleteVppNode, hbad]
  refine ⟨ha, ?_, ?_⟩
  · intro p hp
    rw [ha]
    exact deleteVppNode_deleted pre s hWF hpre p hp
  · intro q hq
    rw [ha]
    exact deleteVppNode_frame pre s hWF hpre q hq

/-- C10 witness: deleting `[nodeA, missing, nodeB]` deletes `nodeA`, stops at
`missing`, and leaves `nodeB` (and any other surviving name) untouched. -/
theorem DeleteVppNode_stopsAtFirstMissing_witness :
    NMapNamed wDelAB ∧ seqDeletable wDelAB ["nodeA"] = true ∧
    RetrieveNode (DeleteVppNode wDelAB ["nodeA"]) "missing" = .error .notFound ∧
    (DeleteVppNode wDelAB (["nodeA"] ++ "missing" :: ["nodeB"]) =
        DeleteVppNode wDelAB ["nodeA"] ∧
      (∀ p ∈ ["nodeA"],
        RetrieveNode (DeleteVppNode wDelAB (["nodeA"] ++ "missing" :: ["nodeB"])) p =
          .error .notFound) ∧
      (∀ q, q ∉ ["nodeA"] →
        RetrieveNode (DeleteVppNode wDelAB (["nodeA"] ++ "missing" :: ["nodeB"])) q =
          RetrieveNode wDelAB q)) :=
  ⟨by decide, rfl, rfl,
   DeleteVppNode_stopsAtFirstMissing wDelAB ["nodeA"] ["nodeB"] "missing"
     (by decide) rfl rfl⟩

theorem clearCache_no_nodes (c : VppDataStore) :
    (RetrieveAllNodes (ClearCache c)).length = 0 := rfl

theorem processTrace_zeroNodes (input : List NodeDTO) (c : VppDataStore)
    (r : List String) (dm : List NodeDTO)
    (h : (RetrieveAllNodes c).length = 0) :
    (ProcessNodeResponses c r dm input).2 = [] := by
  induction input generalizing dm with
  | nil => rfl
  | cons d input ih =>
    have hne : (dm ++ [d]).length ≠ numDTOs * (RetrieveAllNodes c).length := by
      rw [h]
      simp
    simp only [ProcessNodeResponses, if_neg hne]
    exact ih _

theorem processTrace_characterization (input : List NodeDTO) (c : VppDataStore)
    (r : List String) (dm : List NodeDTO)
    (hlt : dm.length < numDTOs * (RetrieveAllNodes c).length) :
    (ProcessNodeResponses c r dm input).2 =
      if dm.length + input.length < numDTOs * (RetrieveAllNodes c).length then []
      else
        ((dm ++ input.take (numDTOs * (RetrieveAllNodes c).length - dm.length)).map
          ProcEvent.mutation) ++ [ProcEvent.validate] := by
  induction input generalizing dm r with
  | nil =>
    rw [if_pos (by simpa using hlt)]
    rfl
  | cons d input ih =>
    by_cases hfull : (dm ++ [d]).length = numDTOs * (RetrieveAllNodes c).length
    · simp only [ProcessNodeResponses, if_pos hfull]
      rw [processTrace_zeroNodes input _ _ _ (clearCache_no_nodes _)]
      have hcond : ¬ dm.length + (d :: input).length <
          numDTOs * (RetrieveAllNodes c).length := by
        simp only [List.length_append, List.length_cons, List.length_nil] at hfull ⊢
        omega
      rw [if_neg hcond]
      have htake : (d :: input).take
          (numDTOs * (RetrieveAllNodes c).length - dm.length) = [d] := by
        have : numDTOs * (RetrieveAllNodes c).length - dm.length = 1 := by
          simp only [List.length_append, List.length_cons, List.length_nil] at hfull
          omega
        rw [this]
        rfl
      rw [htake]
      simp
    · simp only [ProcessNodeResponses, if_neg hfull]
      have hlt' : (dm ++ [d]).length < numDTOs * (RetrieveAllNodes c).length := by
        simp only [List.length_append, List.length_cons, List.length_nil] at hfull ⊢
        omega
      rw [ih r _ hlt']
      by_cases hc : dm.length + (d :: input).length <
          numDTOs * (RetrieveAllNodes c).length
      · rw [if_pos (by simp only [List.length_append, List.length_cons,
          List.length_nil] at hc ⊢; omega), if_pos hc]
      · rw [if_neg (by simp only [List.length_append, List.length_cons,
          List.length_nil] at hc ⊢; omega), if_neg hc]
        have harith : numDTOs * (RetrieveAllNodes c).length - dm.length =
            (numDTOs * (RetrieveAllNodes c).length - (dm ++ [d]).length) + 1 := by
          simp only [List.length_append, List.length_cons, List.length_nil] at hfull ⊢
          omega
        rw [harith, List.take_succ_cons]
        simp

/-- C4: within a single collection cycle, the joiner trace is exactly the
batched cache mutations followed by the validator invocation: no validator
event occurs before the response buffer holds the complete batch of
`numDTOs * |nodes|` results, and when it occurs, every mutation of the batch
precedes it (an incomplete stream produces no mutation or validation at
all, so the validator never runs on a partially installed batch). -/
theorem ProcessNodeResponses_mutationsBeforeValidate (c : VppDataStore)
    (r : List String) (input : List NodeDTO)
    (h : 0 < numDTOs * (RetrieveAllNodes c).length) :
    (ProcessNodeResponses c r [] input).2 =
      if input.length < numDTOs * (RetrieveAllNodes c).length then []
      else ((input.take (numDTOs * (RetrieveAllNodes c).length)).map
        ProcEvent.mutation) ++ [ProcEvent.validate] := by
  have := processTrace_characterization input c r [] (by simpa using h)
  simpa using this

/-- C4 witness: on a one-node cache a five-result stream produces the five
mutations followed by the validator invocation. -/
theorem ProcessNodeResponses_mutationsBeforeValidate_witness :
    0 < numDTOs * (RetrieveAllNodes wJC).length ∧
    (ProcessNodeResponses wJC [] [] wDTO5).2 =
      (if wDTO5.length < numDTOs * (RetrieveAllNodes wJC).length then []
       else ((wDTO5.take (numDTOs * (RetrieveAllNodes wJC).length)).map
         ProcEvent.mutation) ++ [ProcEvent.validate]) :=
  ⟨by decide, ProcessNodeResponses_mutationsBeforeValidate wJC [] wDTO5 (by decide)⟩

/-- C5 (amended): the joiner leaves Collecting for Validating exactly when
the buffer has received `numDTOs * |nodes|` results — the validator is
invoked on a response stream iff the stream reaches that count; there is no
other (timer-based) transition in `ProcessNodeResponses`. -/
theorem ProcessNodeResponses_gateExactlyOnCount (c : VppDataStore)
    (r : List String) (input : List NodeDTO)
    (h : 0 < numDTOs * (RetrieveAllNodes c).length) :
    ProcEvent.validate ∈ (ProcessNodeResponses c r [] input).2 ↔
      numDTOs * (RetrieveAllNodes c).length ≤ input.length := by
  rw [processTrace_characterization input c r [] (by simpa using h)]
  by_cases hc : input.length < numDTOs * (RetrieveAllNodes c).length
  · rw [if_pos (by simpa using hc)]
    simp
    omega
  · rw [if_neg (by simpa using hc)]
    simp
    omega

/-- C5 witness: with one node (expected count 5) a five-result stream is
validated and the count condition holds. -/
theorem ProcessNodeResponses_gateExactlyOnCount_witness :
    0 < numDTOs * (RetrieveAllNodes wJC).length ∧
    (ProcEvent.validate ∈ (ProcessNodeResponses wJC [] [] wDTO5).2 ↔
      numDTOs * (RetrieveAllNodes wJC).length ≤ wDTO5.length) :=
  ⟨by decide, ProcessNodeResponses_gateExactlyOnCount wJC [] wDTO5 (by decide)⟩

/-- C5 counterexample: a one-node cycle in which only four of the five
expected results arrive (one result missing, however much time passes — the
joiner loop consumes only the response channel and has no timer input).
Contrary to the claim, the joiner does not transition to Validating: no
validator invocation occurs, nothing is recorded in the report (in
particular no "no response" finding), and the incomplete batch is still
buffered, the cycle still collecting. -/
theorem Joiner_noTimerTransition_counterexample :
    (ProcessNodeResponses wJC [] [] wDTO4).2 = [] ∧
    (ProcessNodeResponses wJC [] [] wDTO4).1.2.1 = [] ∧
    (ProcessNodeResponses wJC [] [] wDTO4).1.2.2 = wDTO4 ∧
    (ProcessNodeResponses wJC [] [] wDTO4).1.1 = wJC :=
  ⟨rfl, rfl, rfl, rfl⟩

theorem fetchToDTO_name (nm : String) (k : DtoKind) (res : Except String AgentReply) :
    (fetchToDTO nm k res).name = nm := by
  cases k <;> cases res <;> rfl

theorem fetchToDTO_kind (nm : String) (k : DtoKind) (res : Except String AgentReply) :
    (fetchToDTO nm k res).kind? = some k := by
  cases k <;> cases res <;> rfl

theorem countP_collect_block (nm : String) (m : Node)
    (fetch : String → DtoKind → Except String AgentReply) (k : DtoKind) :
    ((dtoKinds.map (fun kk => fetchToDTO m.Name kk (fetch m.ManIPAdr kk))).countP
      (fun d => decide (d.name = nm ∧ d.kind? = some k))) =
    if m.Name = nm then 1 else 0 := by
  by_cases hname : m.Name = nm
  · cases k <;>
      simp [dtoKinds, fetchToDTO_name, fetchToDTO_kind, hname, List.countP_cons]
  · simp [dtoKinds, fetchToDTO_name, fetchToDTO_kind, hname, List.countP_cons]

theorem countP_collect_zero (nm : String) (nodes : List Node)
    (fetch : String → DtoKind → Except String AgentReply) (k : DtoKind)
    (h : nm ∉ nodes.map Node.Name) :
    ((CollectAgentInfo nodes fetch).countP
      (fun d => decide (d.name = nm ∧ d.kind? = some k))) = 0 := by
  induction nodes with
  | nil => rfl
  | cons m rest ih =>
    have hm : m.Name ≠ nm := fun he => h (by simp [he])
    have hrest : nm ∉ rest.map Node.Name := fun hmem => h (by simp [hmem])
    show ((dtoKinds.map (fun kk => fetchToDTO m.Name kk (fetch m.ManIPAdr kk))
        ++ CollectAgentInfo rest fetch).countP _) = 0
    rw [List.countP_append, countP_collect_block, if_neg hm, ih hrest]

theorem collect_length (nodes : List Node)
    (fetch : String → DtoKind → Except String AgentReply) :
    (CollectAgentInfo nodes fetch).length = numDTOs * nodes.length := by
  induction nodes with
  | nil => rfl
  | cons m rest ih =>
    show ((dtoKinds.map (fun kk => fetchToDTO m.Name kk (fetch m.ManIPAdr kk))
        ++ CollectAgentInfo rest fetch).length) = _
    rw [List.length_append, ih]
    simp [dtoKinds, numDTOs]
    ring

theorem setNodeDataStep_report (c : VppDataStore) (r : List String) (d : NodeDTO) :
    (setNodeDataStep c r d).2 = appendDtoErr r d.error := by
  cases d <;> rfl

theorem setNodeData_report (dtos : List NodeDTO) (c : VppDataStore) (r : List String) :
    (SetNodeData c r dtos).2 = r ++ dtos.filterMap NodeDTO.error := by
  induction dtos generalizing c r with
  | nil => simp [SetNodeData]
  | cons d rest ih =>
    show (SetNodeData (setNodeDataStep c r d).1 (setNodeDataStep c r d).2 rest).2 = _
    rw [ih, setNodeDataStep_report]
    cases he : d.error with
    | none => simp [appendDtoErr, List.filterMap_cons, he]
    | some e => simp [appendDtoErr, List.filterMap_cons, he]

theorem collect404_errors (nodes : List Node) :
    (CollectAgentInfo nodes fetch404).filterMap NodeDTO.error =
      nodes.flatMap (fun m => List.replicate numDTOs (m.ManIPAdr ++ ": 404 Not Found")) := by
  induction nodes with
  | nil => rfl
  | cons m rest ih =>
    show ((dtoKinds.map (fun kk => fetchToDTO m.Name kk (fetch404 m.ManIPAdr kk))
        ++ CollectAgentInfo rest fetch404).filterMap NodeDTO.error) = _
    rw [List.filterMap_append, ih]
    rfl

theorem strAppend_cancel (a b s : String) (h : a ++ s = b ++ s) : a = b := by
  have hd : a.data ++ s.data = b.data ++ s.data := by
    rw [← String.data_append, ← String.data_append, h]
  have hab : a.data = b.data := by
    exact List.append_cancel_right hd
  exact String.ext hab

theorem countP_replicate_eq (n : Nat) (msg target : String) :
    ((List.replicate n msg).countP (fun m => decide (m = target))) =
      if msg = target then n else 0 := by
  induction n with
  | zero => simp
  | succ n ih =>
    rw [List.replicate_succ, List.countP_cons, ih]
    by_cases h : msg = target <;> simp [h]

theorem countP_flatMap_replicate (nodes : List Node) (nd : Node)
    (hnd : nd ∈ nodes) (hips : (nodes.map Node.ManIPAdr).Nodup) :
    ((nodes.flatMap (fun m => List.replicate numDTOs
        (m.ManIPAdr ++ ": 404 Not Found"))).countP
      (fun m => decide (m = nd.ManIPAdr ++ ": 404 Not Found"))) = numDTOs := by
  induction nodes with
  | nil => cases hnd
  | cons m rest ih =>
    simp only [List.map_cons, List.nodup_cons] at hips
    rw [List.flatMap_cons, List.countP_append, countP_replicate_eq]
    rcases List.mem_cons.mp hnd with hcase | hcase
    · subst hcase
      rw [if_pos rfl]
      have hzero : ((rest.flatMap (fun m => List.replicate numDTOs
          (m.ManIPAdr ++ ": 404 Not Found"))).countP
          (fun msg => decide (msg = nd.ManIPAdr ++ ": 404 Not Found"))) = 0 := by
        clear ih hnd
        induction rest with
        | nil => rfl
        | cons m2 rest2 ih2 =>
          simp only [List.map_cons, List.nodup_cons, List.mem_cons] at hips
          rw [List.flatMap_cons, List.countP_append, countP_replicate_eq, if_neg]
          · rw [ih2 ⟨fun hmem => hips.1 (Or.inr hmem), hips.2.2⟩]
          · intro he
            exact hips.1 (Or.inl (strAppend_cancel _ _ _ he).symm)
      rw [hzero]
      omega
    · have hne : m.ManIPAdr ≠ nd.ManIPAdr := by
        intro he
        exact hips.1 (he ▸ List.mem_map_of_mem Node.ManIPAdr hcase)
      rw [if_neg (fun he => hne (strAppend_cancel _ _ _ he)), ih hcase hips.2]
      omega

/-- C8: each collection tick emits exactly one result per (node, endpoint)
pair — `numDTOs * |nodes|` results in total, and (for distinct node names)
exactly one result carrying each (name, kind) combination, errors included —
so when every endpoint of every node answers HTTP 404, installing the batch
records exactly `numDTOs` (= 5) transport-error findings for each node in
the report. -/
theorem CollectAgentInfo_oneResultPerPair (nodes : List Node)
    (fetch : String → DtoKind → Except String AgentReply) (c : VppDataStore) :
    (CollectAgentInfo nodes fetch).length = numDTOs * nodes.length ∧
    ((nodes.map Node.Name).Nodup → ∀ nd ∈ nodes, ∀ k : DtoKind,
      ((CollectAgentInfo nodes fetch).countP
        (fun d => decide (d.name = nd.Name ∧ d.kind? = some k))) = 1) ∧
    ((nodes.map Node.ManIPAdr).Nodup → ∀ nd ∈ nodes,
      ((SetNodeData c [] (CollectAgentInfo nodes fetch404)).2.countP
        (fun msg => decide (msg = nd.ManIPAdr ++ ": 404 Not Found"))) = numDTOs) := by
  refine ⟨collect_length nodes fetch, ?_, ?_⟩
  · intro hnames nd hnd k
    induction nodes with
    | nil => cases hnd
    | cons m rest ih =>
      simp only [List.map_cons, List.nodup_cons] at hnames
      show ((dtoKinds.map (fun kk => fetchToDTO m.Name kk (fetch m.ManIPAdr kk))
          ++ CollectAgentInfo rest fetch).countP _) = 1
      rw [List.countP_append, countP_collect_block]
      rcases List.mem_cons.mp hnd with hcase | hcase
      · subst hcase
        rw [if_pos rfl,
          countP_collect_zero nd.Name rest fetch k hnames.1]
      · have hne : m.Name ≠ nd.Name := by
          intro he
          exact hnames.1 (he ▸ List.mem_map_of_mem Node.Name hcase)
        rw [if_neg hne, ih hnames.2 hcase]
  · intro hips nd hnd
    rw [setNodeData_report, List.nil_append, collect404_errors]
    exact countP_flatMap_replicate nodes nd hnd hips

/-- C8 witness: on the three-node topology, 15 results are emitted, the
(k8s-master, liveness) pair is carried by exactly one result, and under the
all-404 agent exactly five 404 findings are recorded for k8s-master. -/
theorem CollectAgentInfo_oneResultPerPair_witness :
    (wCollectNodes.map Node.Name).Nodup ∧
    (wCollectNodes.map Node.ManIPAdr).Nodup ∧
    { ID := 3, IPAdr := "192.168.16.3/24", ManIPAdr := "10.20.0.2",
      Name := "k8s-master" : Node } ∈ wCollectNodes ∧
    (CollectAgentInfo wCollectNodes fetch404).length = numDTOs * wCollectNodes.length ∧
    ((CollectAgentInfo wCollectNodes fetch404).countP
      (fun d => decide (d.name = "k8s-master" ∧ d.kind? = some DtoKind.liveness))) = 1 ∧
    ((SetNodeData NewVppDataStore [] (CollectAgentInfo wCollectNodes fetch404)).2.countP
      (fun msg => decide (msg = "10.20.0.2" ++ ": 404 Not Found"))) = numDTOs := by
  have h := CollectAgentInfo_oneResultPerPair wCollectNodes fetch404 NewVppDataStore
  refine ⟨by decide, by decide, by decide, h.1, ?_, ?_⟩
  · exact h.2.1 (by decide)
      { ID := 3, IPAdr := "192.168.16.3/24", ManIPAdr := "10.20.0.2", Name := "k8s-master" }
      (by decide) DtoKind.liveness
  · exact h.2.2 (by decide)
      { ID := 3, IPAdr := "192.168.16.3/24", ManIPAdr := "10.20.0.2", Name := "k8s-master" }
      (by decide)

/-- C1: running the full Validator suite on the defect-free 3-node topology
(k8s-master, k8s-worker1, k8s-worker2 with matching VPP and K8s records)
produces a report whose `<global>` entry has exactly 4 findings while every
per-node list is empty (the report holds no key other than `<global>`). -/
theorem Validate_cleanTopology_report :
    (reportGet (Validate cleanVpp cleanK8s []) GlobalMsg).length = 4 ∧
    (∀ kv ∈ Validate cleanVpp cleanK8s [], kv.1 = GlobalMsg) := by
  decide

/-- C2: on the 3-node topology with the VPP record for k8s-master deleted
(and symmetrically with the K8s record deleted), `ValidateK8sNodeInfo`
leaves exactly 2 findings under `<global>`, the missing pair also filing
one finding under the node's own key. -/
theorem ValidateK8sNodeInfo_missingPair_report :
    (reportGet (ValidateK8sNodeInfo vppMissingMaster cleanK8s []) GlobalMsg).length = 2 ∧
    (reportGet (ValidateK8sNodeInfo vppMissingMaster cleanK8s []) "k8s-master").length = 1 ∧
    (reportGet (ValidateK8sNodeInfo cleanVpp k8sMissingMaster []) GlobalMsg).length = 2 ∧
    (reportGet (ValidateK8sNodeInfo cleanVpp k8sMissingMaster []) "k8s-master").length = 1 := by
  decide
